import Mathlib

/-!
Verification development for the SDRF → OpenMS conversion engine
(`sdrf_pipelines/openms/openms.py`).

The Python source is shallowly embedded: Python `str` is Lean `String`
(operations implemented over `String.data : List Char`, matching Python's
per-character semantics for the ASCII data handled by the program), Python
`dict` is an insertion-ordered association list with overwrite-in-place
(matching CPython dict ordering), Python `set` built from a list of labels is
`List.toFinset`, and fallible code (KeyError / IndexError / ValueError /
AttributeError / RuntimeError raised to the caller) returns
`Except String α`.  Error payload strings are abbreviated where the Python
message interpolates values; no theorem depends on the payload text, only on
ok/error.  The warning ledger `self.warnings` (a message → count dict) is
modelled as the list of emitted warning messages, whose multiset of elements
carries the same information.
-/

/-- Python `startswith`-style prefix removal on character lists: returns the
remainder of `s` after `sep` when `sep` is a prefix of `s`. -/
def stripPfx : List Char → List Char → Option (List Char)
  | [], s => some s
  | _ :: _, [] => none
  | a :: xs, b :: ys => if a = b then stripPfx xs ys else none

/-- Python substring test `sub in s` on character lists. -/
def infixB : List Char → List Char → Bool
  | sub, [] => sub.isEmpty
  | sub, c :: t => (stripPfx sub (c :: t)).isSome || infixB sub t

/-- Locates the first occurrence of `sep` in `s`, returning the characters
before it and the characters after it. -/
def findSep : List Char → List Char → Option (List Char × List Char)
  | _, [] => none
  | sep, c :: t =>
    match stripPfx sep (c :: t) with
    | some rest => some ([], rest)
    | none => (findSep sep t).map (fun p => (c :: p.1, p.2))

/-- Fuelled worker for `pySplitC`; the fuel `s.length + 1` always suffices
because each found separator consumes at least one character. -/
def pySplitF (sep : List Char) : Nat → List Char → List (List Char)
  | 0, s => [s]
  | Nat.succ k, s =>
    match findSep sep s with
    | none => [s]
    | some (pre, post) => pre :: pySplitF sep k post

/-- Python `s.split(sep)` for a non-empty separator (the program never splits
on an empty separator). -/
def pySplitC (sep s : List Char) : List (List Char) :=
  if sep.isEmpty then [s] else pySplitF sep (s.length + 1) s

/-- Python `sep.join(parts)` on character lists. -/
def pyJoinC (sep : List Char) : List (List Char) → List Char
  | [] => []
  | [x] => x
  | x :: y :: xs => x ++ sep ++ pyJoinC sep (y :: xs)

/-- Python `s.replace(old, new)` for non-empty `old`: all non-overlapping
occurrences, left to right. -/
def pyReplaceC (s old new : List Char) : List Char :=
  pyJoinC new (pySplitC old s)

/-- Python `s.endswith(suffix)` on character lists. -/
def suffixB (suf s : List Char) : Bool :=
  (stripPfx suf.reverse s.reverse).isSome

/-- Python `s.removesuffix(suffix)`: drops `suffix` when present (a
case-sensitive check), otherwise returns `s` unchanged. -/
def pyRemoveSuffixC (s suf : List Char) : List Char :=
  if suffixB suf s then s.take (s.length - suf.length) else s

/-- Whitespace recognised by Python `str.strip()` for the data at hand. -/
def isPySpace (c : Char) : Bool :=
  c = ' ' || c = '\t' || c = '\n' || c = '\r'

/-- Python `s.strip()`. -/
def trimC (s : List Char) : List Char :=
  ((s.dropWhile isPySpace).reverse.dropWhile isPySpace).reverse

/-- Python `s.capitalize()`: first character upper-cased, the rest
lower-cased. -/
def pyCapitalizeC : List Char → List Char
  | [] => []
  | c :: t => Char.toUpper c :: t.map Char.toLower

/-- String-level wrapper for the substring test `sub in s`. -/
def pyIn (sub s : String) : Bool := infixB sub.data s.data

/-- String-level Python `s.lower()` (ASCII data). -/
def pyLowerS (s : String) : String := String.mk (s.data.map Char.toLower)

/-- String-level Python `s.endswith(suffix)`. -/
def pyEndsWith (s suf : String) : Bool := suffixB suf.data s.data

/-- String-level Python `s.removesuffix(suffix)`. -/
def pyRemoveSuffixS (s suf : String) : String :=
  String.mk (pyRemoveSuffixC s.data suf.data)

/-- String-level Python `s.split(sep)`. -/
def pySplitS (sep s : String) : List String :=
  (pySplitC sep.data s.data).map String.mk

/-- String-level Python `sep.join(parts)`. -/
def pyJoinStr (sep : String) : List String → String
  | [] => ""
  | [x] => x
  | x :: y :: xs => x ++ sep ++ pyJoinStr sep (y :: xs)

/-- Python `str(n)` for a natural number. -/
def natStr (n : Nat) : String := Nat.repr n

/-- Python `str(i)` for an integer. -/
def intStr : Int → String
  | Int.ofNat n => natStr n
  | Int.negSucc n => "-" ++ natStr (n + 1)

/-- Digits of a decimal literal: non-empty and all in `0`–`9`. -/
def digitsB (l : List Char) : Bool := !l.isEmpty && l.all Char.isDigit

/-- Numeric value of a list of decimal digits. -/
def natOfDigits (l : List Char) : Nat :=
  l.foldl (fun a c => a * 10 + (c.toNat - '0'.toNat)) 0

/-- Optional leading sign of a numeric literal. -/
def stripSign : List Char → List Char
  | '+' :: t => t
  | '-' :: t => t
  | l => l

/-- Mantissa of a Python float literal: digits, digits`.`digits,
digits`.`, or `.`digits. -/
def pyFloatMantissa (l : List Char) : Bool :=
  match pySplitC ['.'] l with
  | [a] => digitsB a
  | [a, b] => (digitsB a && (b.isEmpty || digitsB b)) || (a.isEmpty && digitsB b)
  | _ => false

/-- Models Python `float(s)` succeeding, for ordinary decimal literals with an
optional sign and exponent (special forms such as `inf`, `nan` or underscore
separators are out of scope: no claim touches them). -/
def isPyFloat (s : List Char) : Bool :=
  let l := stripSign (trimC s)
  match pySplitC ['e'] (l.map Char.toLower) with
  | [m] => pyFloatMantissa m
  | [m, e] => pyFloatMantissa m && digitsB (stripSign e)
  | _ => false

/-- Models Python `int(s)`: optional surrounding whitespace, optional sign,
non-empty run of decimal digits. -/
def pyIntParse (s : List Char) : Option Int :=
  match trimC s with
  | '-' :: t => if digitsB t then some (-(natOfDigits t : Int)) else none
  | '+' :: t => if digitsB t then some (natOfDigits t : Int) else none
  | t => if digitsB t then some (natOfDigits t : Int) else none

/-- Insertion-ordered dictionary update: overwrites in place when the key is
present, else appends — CPython dict semantics. -/
def dictInsert {K V : Type} [DecidableEq K] : List (K × V) → K → V → List (K × V)
  | [], k, v => [(k, v)]
  | (k', v') :: t, k, v =>
    if k' = k then (k, v) :: t else (k', v') :: dictInsert t k v

/-- Dictionary lookup (`d[k]`, with `none` modelling `KeyError`). -/
def dictGet? {K V : Type} [DecidableEq K] : List (K × V) → K → Option V
  | [], _ => none
  | (k', v') :: t, k => if k' = k then some v' else dictGet? t k

/-- Python `list.index(x)`: index of the first occurrence (`none` models
`ValueError`). -/
def listIndex? {α : Type} [DecidableEq α] : List α → α → Option Nat
  | [], _ => none
  | a :: t, x => if a = x then some 0 else (listIndex? t x).map (· + 1)

/-- Python list indexing `l[i]` with negative indices counted from the end;
`none` models `IndexError`. -/
def pyListGet {α : Type} (l : List α) (i : Int) : Option α :=
  if 0 ≤ i then l.get? i.toNat
  else
    let j := (l.length : Int) + i
    if 0 ≤ j then l.get? j.toNat else none

/-- First-occurrence-order deduplication, as performed by
`Counter(values).keys()` over an iterable. -/
def pyDedup {α : Type} [DecidableEq α] (l : List α) : List α :=
  l.foldl (fun acc a => if acc.contains a then acc else acc ++ [a]) []

/-- Lifts a dictionary lookup into `Except`, the `none` case being a Python
`KeyError` (or `ValueError` for `list.index`) propagating to the caller. -/
def keyErr {α : Type} (msg : String) : Option α → Except String α
  | some a => Except.ok a
  | none => Except.error msg

/-- True exactly on `Except.ok`. -/
def isOkB {α : Type} : Except String α → Bool
  | Except.ok _ => true
  | Except.error _ => false

/-- `infer_tmtplex` (openms.py lines 38–57): classifies a set of TMT label
tokens into a plex name by the priority ladder of the source. -/
def infer_tmtplex (label_set : Finset String) : String :=
  if 16 < label_set.card ∨ "TMT134C" ∈ label_set ∨ "TMT135N" ∈ label_set then
    "tmt18plex"
  else if 11 < label_set.card ∨ "TMT134N" ∈ label_set ∨ "TMT133C" ∈ label_set
      ∨ "TMT133N" ∈ label_set ∨ "TMT132C" ∈ label_set ∨ "TMT132N" ∈ label_set then
    "tmt16plex"
  else if label_set.card = 11 ∨ "TMT131C" ∈ label_set then
    "tmt11plex"
  else if 6 < label_set.card then
    "tmt10plex"
  else
    "tmt6plex"

/-- The `TMT_PLEXES` channel tables (openms.py lines 117–189), as an
insertion-ordered dict of dicts. -/
def TMT_PLEXES : List (String × List (String × Int)) :=
  [("tmt18plex",
    [("TMT126", 1), ("TMT127N", 2), ("TMT127C", 3), ("TMT128N", 4),
     ("TMT128C", 5), ("TMT129N", 6), ("TMT129C", 7), ("TMT130N", 8),
     ("TMT130C", 9), ("TMT131N", 10), ("TMT131C", 11), ("TMT132N", 12),
     ("TMT132C", 13), ("TMT133N", 14), ("TMT133C", 15), ("TMT134N", 16),
     ("TMT134C", 17), ("TMT135N", 18)]),
   ("tmt16plex",
    [("TMT126", 1), ("TMT127N", 2), ("TMT127C", 3), ("TMT128N", 4),
     ("TMT128C", 5), ("TMT129N", 6), ("TMT129C", 7), ("TMT130N", 8),
     ("TMT130C", 9), ("TMT131N", 10), ("TMT131C", 11), ("TMT132N", 12),
     ("TMT132C", 13), ("TMT133N", 14), ("TMT133C", 15), ("TMT134N", 16)]),
   ("tmt11plex",
    [("TMT126", 1), ("TMT127N", 2), ("TMT127C", 3), ("TMT128N", 4),
     ("TMT128C", 5), ("TMT129N", 6), ("TMT129C", 7), ("TMT130N", 8),
     ("TMT130C", 9), ("TMT131N", 10), ("TMT131C", 11)]),
   ("tmt10plex",
    [("TMT126", 1), ("TMT127N", 2), ("TMT127C", 3), ("TMT128N", 4),
     ("TMT128C", 5), ("TMT129N", 6), ("TMT129C", 7), ("TMT130N", 8),
     ("TMT130C", 9), ("TMT131", 10)]),
   ("tmt6plex",
    [("TMT126", 1), ("TMT127", 2), ("TMT128", 3), ("TMT129", 4),
     ("TMT130", 5), ("TMT131", 6)])]

/-- `self.itraq4plex` (openms.py line 221). -/
def itraq4plex : List (String × Int) :=
  [("itraq114", 1), ("itraq115", 2), ("itraq116", 3), ("itraq117", 4)]

/-- `self.itraq8plex` (openms.py lines 222–231). -/
def itraq8plex : List (String × Int) :=
  [("itraq113", 1), ("itraq114", 2), ("itraq115", 3), ("itraq116", 4),
   ("itraq117", 5), ("itraq118", 6), ("itraq119", 7), ("itraq121", 8)]

/-- `self.silac3` (openms.py line 234). -/
def silac3 : List (String × Int) :=
  [("silac light", 1), ("silac medium", 2), ("silac heavy", 3)]

/-- `self.silac2` (openms.py line 235). -/
def silac2 : List (String × Int) :=
  [("silac light", 1), ("silac heavy", 2)]

/-- `TMT_mod` defaults (openms.py lines 1023–1032). -/
def TMT_mod : List (String × List String) :=
  [("tmt6plex", ["TMT6plex (K)", "TMT6plex (N-term)"]),
   ("tmt10plex", ["TMT6plex (K)", "TMT6plex (N-term)"]),
   ("tmt11plex", ["TMT6plex (K)", "TMT6plex (N-term)"]),
   ("tmt16plex", ["TMTpro (K)", "TMTpro (N-term)"]),
   ("tmt18plex", ["TMTpro (K)", "TMTpro (N-term)"])]

/-- `ITRAQ_mod` defaults (openms.py lines 1033–1036). -/
def ITRAQ_mod : List (String × List String) :=
  [("itraq4plex", ["iTRAQ4plex (K)", "iTRAQ4plex (N-term)"]),
   ("itraq8plex", ["iTRAQ8plex (K)", "iTRAQ8plex (N-term)"])]

/-- `possible_extension` (openms.py line 77). -/
def possible_extension : List String := ["raw", "mzML", "mzml", "d"]

/-- Builds the `extension_convert_dict` (openms.py lines 78–82): each
comma-separated item must split on `:` into exactly two parts, otherwise the
tuple unpacking raises `ValueError`. -/
def parseExtRules : List String → List (String × String) →
    Except String (List (String × String))
  | [], d => Except.ok d
  | p :: rest, d =>
    match pySplitS ":" p with
    | [a, b] => parseExtRules rest (dictInsert d a b)
    | _ => Except.error "ValueError: tuple unpacking in extension_convert"

/-- The `RuntimeError` message of `get_openms_file_name` (openms.py lines
90–94), with the interpolated values. -/
def extErrMsg (raw_bkp r : String) : String :=
  "Error converting extension, " ++ raw_bkp ++ " -> " ++ r
    ++ ", the ending file does not have any of the supported extensions"

/-- The `for current_extension, target_extension in ...items()` loop of
`get_openms_file_name` (openms.py lines 85–97): the first rule whose source
extension matches case-insensitively is applied, the rewritten name is
validated against `possible_extension`, and the function returns; with no
matching rule the name is returned unchanged. -/
def applyExtRules (raw_bkp raw : String) :
    List (String × String) → Except String String
  | [] => Except.ok raw
  | (cur, tgt) :: rest =>
    if pyEndsWith (pyLowerS raw) (pyLowerS cur) then
      let r := pyRemoveSuffixS raw cur ++ tgt
      if possible_extension.any (fun x => pyEndsWith r x) then Except.ok r
      else Except.error (extErrMsg raw_bkp r)
    else applyExtRules raw_bkp raw rest

/-- `get_openms_file_name` (openms.py lines 60–97). -/
def get_openms_file_name (raw : String) :
    Option String → Except String String
  | none => Except.ok raw
  | some extension_convert => do
    let rules ← parseExtRules (pySplitS "," extension_convert) []
    applyExtRules raw raw rules

/-- First rule of the extension dict whose source extension matches the file
name case-insensitively (specification-side companion of `applyExtRules`). -/
def firstExtMatch (raw : String) : List (String × String) →
    Option (String × String)
  | [] => none
  | (cur, tgt) :: rest =>
    if pyEndsWith (pyLowerS raw) (pyLowerS cur) then some (cur, tgt)
    else firstExtMatch raw rest

/-- Worker for `parse_tolerance` (openms.py lines 104–113): iterates over the
candidate unit tokens; on the first unit contained in the lowered cell it
takes the text before the unit, requires it to parse as a float (else the
`float` call raises), warns when the value and unit are not
whitespace-separated, and capitalises `da` to `Da`.  Returns the result pair
together with the warning messages emitted. -/
def toleranceLoop (pc_tol_str : String) :
    List String → Except String ((Option String × Option String) × List String)
  | [] => Except.ok ((none, none), [])
  | unit :: rest =>
    if pyIn unit pc_tol_str then
      let tol := String.mk (trimC ((pySplitC unit.data pc_tol_str.data).headI))
      let ws :=
        if pyIn (" " ++ unit) pc_tol_str then ([] : List String)
        else ["Missing whitespace in precursor mass tolerance: " ++ pc_tol_str
              ++ " Adding it: " ++ tol ++ " " ++ unit]
      if isPyFloat tol.data then
        let unitOut := if unit = "da" then String.mk (pyCapitalizeC unit.data) else unit
        Except.ok ((some tol, some unitOut), ws)
      else Except.error ("ValueError: could not convert string to float: " ++ tol)
    else toleranceLoop pc_tol_str rest

/-- `parse_tolerance` (openms.py lines 100–114), with the default unit list
`("ppm", "da")`; the input is lowered first. -/
def parse_tolerance (pc_tol_str : String) :
    Except String ((Option String × Option String) × List String) :=
  toleranceLoop (pyLowerS pc_tol_str) ["ppm", "da"]

/-- Characters of a captured field value up to the terminating `;`. -/
def takeTillSemi : List Char → List Char
  | [] => []
  | c :: t => if c = ';' then [] else c :: takeTillSemi t

/-- Lazy capture for the pattern fragment `(.+?)(;|$)`: at least one
character, then the shortest continuation ending at `;` or at the end of the
string.  Fails on an empty tail (`.+?` needs one character). -/
def lazyCap : List Char → Option (List Char)
  | [] => none
  | c :: t => some (c :: takeTillSemi t)

/-- Models `re.search("KEY(.+?)(;|$)", m).group(1)`: leftmost occurrence of
the key at which the lazy capture succeeds.  Used for the `NT=`, `AC=`,
`PP=` and `TA=` fields of SDRF cells (openms.py lines 245–274 and the
`NT=` searches elsewhere). -/
def reFieldC (key : List Char) : List Char → Option (List Char)
  | [] => none
  | c :: t =>
    match stripPfx key (c :: t) with
    | some rest =>
      match lazyCap rest with
      | some cap => some cap
      | none => reFieldC key t
    | none => reFieldC key t

/-- String-level wrapper for `reFieldC`. -/
def reField (key m : String) : Option String :=
  (reFieldC key.data m.data).map String.mk

/-- Models `re.search(r"sample (\d+)$", source_name, re.IGNORECASE)` and its
`group(1)` (openms.py line 632): the name must end in `sample ` (any letter
case) followed by one or more digits; the digits are returned. -/
def matchSampleId (s : List Char) : Option (List Char) :=
  let ds := (s.reverse.takeWhile Char.isDigit).reverse
  if ds.isEmpty then none
  else
    let t := s.take (s.length - ds.length)
    if suffixB "sample ".data (t.map Char.toLower) then some ds else none

/-- One iteration of the `openms_ify_mods` loop (openms.py lines 241–292) for
a single modification descriptor cell.  `lookup` stands for the external
`UnimodDatabase.get_by_accession` collaborator: `some name` models a hit whose
`get_name()` is `name`.  Returns the formatted annotations this descriptor
contributes plus the warning messages recorded. -/
def openms_ify_mod (lookup : String → Option String) (m : String) :
    Except String (List String × List String) :=
  if !(pyIn "AC=UNIMOD" m) && !(pyIn "AC=Unimod" m) then
    Except.error ("only UNIMOD modifications supported. " ++ m)
  else
    match reField "NT=" m with
    | none => Except.error "AttributeError: NT= not found"
    | some nt =>
      let name0 := String.mk (pyCapitalizeC nt.data)
      match reField "AC=" m with
      | none => Except.error "AttributeError: AC= not found"
      | some accession =>
        let name :=
          match lookup accession with
          | some n => n
          | none => name0
        let pp :=
          match reField "PP=" m with
          | none => "Anywhere"
          | some p => p
        let taws :=
          match reField "TA=" m with
          | none =>
            let w1 := "Warning no TA= specified. Setting to N-term or C-term if possible."
            if pyIn "C-term" pp then ("C-term", [w1])
            else if pyIn "N-term" pp then ("N-term", [w1])
            else ("", [w1, "Reassignment not possible. Skipping."])
          | some t => (t, [])
        let aa := pySplitS "," taws.1
        let mods :=
          if pp = "Protein N-term" ∨ pp = "Protein C-term" then
            aa.map (fun a =>
              if a = "C-term" ∨ a = "N-term" then name ++ " (" ++ pp ++ ")"
              else name ++ " (" ++ pp ++ " " ++ a ++ ")")
          else if pp = "Any N-term" ∨ pp = "Any C-term" then
            let pp2 := String.mk (pyReplaceC pp.data "Any ".data [])
            aa.map (fun a =>
              if a = "C-term" ∨ a = "N-term" then name ++ " (" ++ pp2 ++ ")"
              else name ++ " (" ++ pp2 ++ " " ++ a ++ ")")
          else
            aa.map (fun a => name ++ " (" ++ a ++ ")")
        Except.ok (mods, taws.2)

/-- `openms_ify_mods` (openms.py lines 238–294): folds `openms_ify_mod` over
the descriptor list and joins the collected annotations with `,`. -/
def openms_ify_mods (lookup : String → Option String) (sdrf_mods : List String) :
    Except String (String × List String) := do
  let r ← sdrf_mods.foldlM
    (fun (acc : List String × List String) m => do
      let p ← openms_ify_mod lookup m
      pure (acc.1 ++ p.1, acc.2 ++ p.2))
    (([] : List String), ([] : List String))
  pure (pyJoinStr "," r.1, r.2)

/-- A Python value that is either a `str` or an `int` — the `sample`
variable of the design-table writers holds a string (regex branch) or an
integer (synthesised-id branch), and lists such as `BioReplicate` mix the
two. -/
abbrev PyVal := Sum String Int

/-- Python `str()` on a `PyVal`. -/
def pyStr : PyVal → String
  | Sum.inl s => s
  | Sum.inr i => intStr i

/-- One normalized SDRF row, restricted to the cells the embedded functions
read.  `acquisition` is `none` when the
`comment[proteomics data acquisition method]` column is absent. -/
structure Row where
  dataFile : String
  sourceName : String
  labelCell : String
  uri : String
  acquisition : Option String
deriving DecidableEq

/-- The per-conversion inputs handed to the experimental-design writers
(openms.py lines 610–621 / 786–798): the aggregate maps built by the first
pass of `openms_convert` plus the extension-conversion option. -/
structure DesignIn where
  file2technical_rep : List (String × String)
  source_name_list : List String
  source_name2n_reps : List (String × Int)
  file2label : List (String × List String)
  file2fraction : List (String × String)
  file2combined_factors : List (String × Option String)
  extension_convert : Option String

/-- Mutable state of the first (file-table) loop of
`writeTwoTableExperimentalDesign` (openms.py lines 631–637), plus the emitted
data rows `(Fraction_Group, Fraction, Spectra_Filepath, Label, Sample)`. -/
structure TwoSt where
  label_index : List (String × Int)
  Fraction_group : List (String × Int)
  sample_id_map : List (String × Int)
  sample_id : Int
  pre_frac_group : Int
  raw_frac : List (Int × List String)
  warnings : List String
  rows : List (String × String × String × String × String)

/-- The fraction-group bookkeeping block shared verbatim by both writers
(openms.py lines 651–667 and 869–885).  Returns the updated
`Fraction_group` map, `raw_frac` map, `pre_frac_group`, and the value of
`Fraction_group[raw]` after the block.  In the new-slot branch the two
successive writes to `Fraction_group[raw]` (keep-or-lower, then clamp to
`pre_frac_group + 1`) are fused into the single final value `v2`. -/
def fracUpdate (raw : String) (fraction_group : Int)
    (Fg : List (String × Int)) (rf : List (Int × List String)) (pre : Int) :
    Except String (List (String × Int) × List (Int × List String) × Int × Int) :=
  match dictGet? rf fraction_group with
  | none =>
    let rf2 := dictInsert rf fraction_group [raw]
    let v1 : Int :=
      match dictGet? Fg raw with
      | some v => if fraction_group < v then fraction_group else v
      | none => fraction_group
    let v2 : Int := if pre + 1 < v1 then pre + 1 else v1
    Except.ok (dictInsert Fg raw v2, rf2, v2, v2)
  | some lst =>
    let rf2 := dictInsert rf fraction_group (lst ++ [raw])
    match lst with
    | [] => Except.error "IndexError: raw_frac entry empty"
    | first :: _ =>
      match dictGet? Fg first with
      | none => Except.error "KeyError: Fraction_group"
      | some v => Except.ok (dictInsert Fg raw v, rf2, pre, v)

/-- The sample-identifier block of the first loop of the two-table writer
(openms.py lines 669–681): the `sample N` suffix when present, else a
sequential id per distinct source name (with a `No sample identifier`
warning). -/
def sampleResolve (source_name : String) (m : List (String × Int)) (sid : Int) :
    PyVal × List (String × Int) × Int × List String :=
  match matchSampleId source_name.data with
  | some ds => (Sum.inl (String.mk ds), m, sid, [])
  | none =>
    match dictGet? m source_name with
    | some v => (Sum.inr v, m, sid, ["No sample identifier"])
    | none => (Sum.inr sid, dictInsert m source_name sid, sid + 1, ["No sample identifier"])

/-- The label-to-channel block of the first loop of
`writeTwoTableExperimentalDesign` (openms.py lines 683–710).  Note the
family tests on the comma-joined label string are case-sensitive (`"TMT"`,
`"SILAC"`, `"ITRAQ"`), the SILAC branch does not advance `label_index`, and
an unmatched family raises `ValueError`. -/
def labelResolveTwo (row : Row) (labels : List String) (labels_str : String)
    (label_set : Finset String) (lidx : List (String × Int)) (raw : String) :
    Except String (String × List (String × Int)) :=
  if labels.contains "label free sample" then Except.ok ("1", lidx)
  else if pyIn "TMT" labels_str then do
    let choice ← keyErr "KeyError: TMT_PLEXES" (dictGet? TMT_PLEXES (infer_tmtplex label_set))
    let li ← keyErr "KeyError: label_index" (dictGet? lidx raw)
    let tok ← keyErr "IndexError: labels" (pyListGet labels li)
    let ch ← keyErr "KeyError: plex channel" (dictGet? choice tok)
    Except.ok (intStr ch, dictInsert lidx raw (li + 1))
  else if pyIn "SILAC" labels_str then do
    let li ← keyErr "KeyError: label_index" (dictGet? lidx raw)
    let tok ← keyErr "IndexError: labels" (pyListGet labels li)
    if label_set.card = 3 then do
      let ch ← keyErr "KeyError: silac3" (dictGet? silac3 (pyLowerS tok))
      Except.ok (intStr ch, lidx)
    else do
      let ch ← keyErr "KeyError: silac2" (dictGet? silac2 (pyLowerS tok))
      Except.ok (intStr ch, lidx)
  else if pyIn "ITRAQ" labels_str then do
    let li ← keyErr "KeyError: label_index" (dictGet? lidx raw)
    let tok ← keyErr "IndexError: labels" (pyListGet labels li)
    if 4 < label_set.card ∨ "ITRAQ113" ∈ label_set ∨ "ITRAQ118" ∈ label_set
        ∨ "ITRAQ119" ∈ label_set ∨ "ITRAQ121" ∈ label_set then do
      let ch ← keyErr "KeyError: itraq8plex" (dictGet? itraq8plex (pyLowerS tok))
      Except.ok (intStr ch, dictInsert lidx raw (li + 1))
    else do
      let ch ← keyErr "KeyError: itraq4plex" (dictGet? itraq4plex (pyLowerS tok))
      Except.ok (intStr ch, dictInsert lidx raw (li + 1))
  else Except.error ("Label " ++ row.labelCell ++ " is not recognized")

/-- The `offset` computation of both writers (openms.py lines 644–647 /
862–865): sum of the per-source max technical-replicate counts of all source
names encountered strictly before this row's source name. -/
def offsetOf (reps : List (String × Int)) : List String → Except String Int
  | [] => Except.ok 0
  | nm :: rest => do
    let v ← keyErr "KeyError: source_name2n_reps" (dictGet? reps nm)
    let r ← offsetOf reps rest
    Except.ok (v + r)

/-- One iteration of the first (file-table) loop of
`writeTwoTableExperimentalDesign` (openms.py lines 638–714). -/
def twoTableStep (din : DesignIn) (st : TwoSt) (row : Row) : Except String TwoSt := do
  let raw := row.dataFile
  let source_name := row.sourceName
  let replicate ← keyErr "KeyError: file2technical_rep" (dictGet? din.file2technical_rep raw)
  let idx ← keyErr "ValueError: source_name_list.index" (listIndex? din.source_name_list source_name)
  let offset ← offsetOf din.source_name2n_reps (din.source_name_list.take idx)
  let rep ← keyErr "ValueError: invalid literal for int" (pyIntParse replicate.data)
  let fru ← fracUpdate raw (offset + rep) st.Fraction_group st.raw_frac st.pre_frac_group
  let sres := sampleResolve source_name st.sample_id_map st.sample_id
  let labels ← keyErr "KeyError: file2label" (dictGet? din.file2label raw)
  let labels_str := pyJoinStr "," labels
  let lres ← labelResolveTwo row labels labels_str labels.toFinset st.label_index raw
  let out ← get_openms_file_name raw din.extension_convert
  let fraction ← keyErr "KeyError: file2fraction" (dictGet? din.file2fraction raw)
  Except.ok
    { label_index := lres.2
      Fraction_group := fru.1
      sample_id_map := sres.2.1
      sample_id := sres.2.2.1
      pre_frac_group := fru.2.2.1
      raw_frac := fru.2.1
      warnings := st.warnings ++ sres.2.2.2
      rows := st.rows ++ [(intStr fru.2.2.2, fraction, out, lres.1, pyStr sres.1)] }

/-- The initial `label_index` dict
`dict(zip(sdrf["comment[data file]"], [0]*...))` (openms.py line 631). -/
def initLabelIndex (rows : List Row) : List (String × Int) :=
  rows.foldl (fun d r => dictInsert d r.dataFile 0) []

/-- Initial state of the first loop of the two-table writer (openms.py lines
631–637). -/
def initTwoSt (rows : List Row) : TwoSt :=
  { label_index := initLabelIndex rows
    Fraction_group := []
    sample_id_map := []
    sample_id := 1
    pre_frac_group := 1
    raw_frac := []
    warnings := []
    rows := [] }

/-- The whole first loop of `writeTwoTableExperimentalDesign`. -/
def writeTwoTableLoop1 (din : DesignIn) (rows : List Row) : Except String TwoSt :=
  rows.foldlM (twoTableStep din) (initTwoSt rows)

/-- Projection used by the fraction-group theorems: the emitted
`Fraction_Group` column of the two-table writer's file table. -/
def designFgs (din : DesignIn) (rows : List Row) : Except String (List String) :=
  (writeTwoTableLoop1 din rows).map (fun st => st.rows.map (fun r => r.1))

/-- Projection: the emitted `Spectra_Filepath` column of the two-table
writer's file table. -/
def designPaths (din : DesignIn) (rows : List Row) : Except String (List String) :=
  (writeTwoTableLoop1 din rows).map (fun st => st.rows.map (fun r => r.2.2.1))

/-- State of the second (sample-table) loop of
`writeTwoTableExperimentalDesign` (openms.py lines 729–733), plus the emitted
sample rows `(Sample, MSstats_Condition, MSstats_BioReplicate,
MSstats_Mixture?)` — the mixture component is `none` for the three-column
header. -/
structure SampleSt where
  sample_row_written : List PyVal
  mixture_identifier : Int
  mixture_raw_tag : List (String × Int)
  mixture_sample_tag : List (PyVal × Int)
  BioReplicate : List PyVal
  warnings : List String
  samples : List (String × String × String × Option String)

/-- The sample/bioreplicate block of the sample-table loop (openms.py lines
738–755).  In the no-suffix branch `sample_id_map[source_name]` is read (a
missing key is a `KeyError`), the sample joins `BioReplicate` if new, and the
bioreplicate id is its 1-based position there. -/
def sampleResolveLoop2 (source_name : String) (sidMap : List (String × Int))
    (bio : List PyVal) :
    Except String (PyVal × String × List PyVal × List String) :=
  match matchSampleId source_name.data with
  | some ds =>
    let s : PyVal := Sum.inl (String.mk ds)
    let bio2 := if bio.contains s then bio else bio ++ [s]
    Except.ok (s, String.mk ds, bio2, [])
  | none => do
    let v ← keyErr "KeyError: sample_id_map" (dictGet? sidMap source_name)
    let s : PyVal := Sum.inr v
    let bio2 := if bio.contains s then bio else bio ++ [s]
    let i ← keyErr "ValueError: BioReplicate.index" (listIndex? bio2 s)
    Except.ok (s, natStr (i + 1), bio2, ["No sample identifier"])

/-- The mixture-identifier block (openms.py lines 762–773): a new sequential
id the first time neither the raw file nor the sample has one, otherwise the
existing id is reused and propagated to the raw file. -/
def mixtureResolve (raw : String) (sample : PyVal)
    (mrt : List (String × Int)) (mst : List (PyVal × Int)) (mid : Int) :
    Int × List (String × Int) × List (PyVal × Int) × Int :=
  match dictGet? mrt raw with
  | some v => (v, mrt, mst, mid)
  | none =>
    match dictGet? mst sample with
    | none => (mid, dictInsert mrt raw mid, dictInsert mst sample mid, mid + 1)
    | some v => (v, dictInsert mrt raw v, mst, mid)

/-- One iteration of the sample-table loop of
`writeTwoTableExperimentalDesign` (openms.py lines 735–781).  `header4`
records whether the `MSstats_Mixture` column is present. -/
def twoTableSampleStep (din : DesignIn) (sidMap : List (String × Int))
    (header4 : Bool) (st : SampleSt) (row : Row) : Except String SampleSt := do
  let raw := row.dataFile
  let source_name := row.sourceName
  let sres ← sampleResolveLoop2 source_name sidMap st.BioReplicate
  let condition ←
    match dictGet? din.file2combined_factors (raw ++ row.labelCell) with
    | none => Except.error "KeyError: file2combined_factors"
    | some none => Except.ok source_name
    | some (some c) => Except.ok c
  if header4 then
    let mres := mixtureResolve raw sres.1 st.mixture_raw_tag st.mixture_sample_tag st.mixture_identifier
    if st.sample_row_written.contains sres.1 then
      Except.ok { st with
        mixture_raw_tag := mres.2.1, mixture_sample_tag := mres.2.2.1,
        mixture_identifier := mres.2.2.2, BioReplicate := sres.2.2.1,
        warnings := st.warnings ++ sres.2.2.2 }
    else
      Except.ok { st with
        mixture_raw_tag := mres.2.1, mixture_sample_tag := mres.2.2.1,
        mixture_identifier := mres.2.2.2, BioReplicate := sres.2.2.1,
        warnings := st.warnings ++ sres.2.2.2,
        sample_row_written := st.sample_row_written ++ [sres.1],
        samples := st.samples ++ [(pyStr sres.1, condition, sres.2.1, some (intStr mres.1))] }
  else
    if st.sample_row_written.contains sres.1 then
      Except.ok { st with
        BioReplicate := sres.2.2.1,
        warnings := st.warnings ++ sres.2.2.2 }
    else
      Except.ok { st with
        BioReplicate := sres.2.2.1,
        warnings := st.warnings ++ sres.2.2.2,
        sample_row_written := st.sample_row_written ++ [sres.1],
        samples := st.samples ++ [(pyStr sres.1, condition, sres.2.1, none)] }

/-- `writeTwoTableExperimentalDesign` (openms.py lines 610–784): the file
table loop, the header decision on the first file's labels (openms.py lines
718–728, raising `IndexError` on an empty table), then the sample-table
loop.  Returns the final states of both loops. -/
def writeTwoTable (din : DesignIn) (rows : List Row) :
    Except String (TwoSt × SampleSt) := do
  let st1 ← writeTwoTableLoop1 din rows
  match rows with
  | [] => Except.error "IndexError: iloc on empty frame"
  | r0 :: _ => do
    let labs0 ← keyErr "KeyError: file2label" (dictGet? din.file2label r0.dataFile)
    let low := pyJoinStr "," (labs0.map pyLowerS)
    let header4 := pyIn "tmt" low || pyIn "itraq" low
    let st2 ← rows.foldlM (twoTableSampleStep din st1.sample_id_map header4)
      { sample_row_written := [], mixture_identifier := 1, mixture_raw_tag := [],
        mixture_sample_tag := [], BioReplicate := [], warnings := [], samples := [] }
    Except.ok (st1, st2)

/-- `writeOneTableExperimentalDesign` (openms.py lines 786–1003).  Its first
statement after initialising the output string is
`cdf = file2label[sdrf["comment[data file]"].iloc[0]].lower()` (line 800);
`file2label` values are `list[str]` (they are only ever assigned lists, at
lines 471 and 483), and a Python `list` has no `lower` attribute, so on an
empty table the `.iloc[0]` raises `IndexError`, on a first file absent from
`file2label` the subscript raises `KeyError`, and otherwise the call raises
`AttributeError` — the function never reaches its row loop.  The embedding
records exactly this behaviour. -/
def writeOneTable (din : DesignIn) (legacy : Bool) (rows : List Row) :
    Except String (List (List String)) :=
  match rows with
  | [] => Except.error "IndexError: iloc on empty frame"
  | r0 :: _ =>
    match dictGet? din.file2label r0.dataFile with
    | none => Except.error "KeyError: file2label"
    | some _ =>
      Except.error "AttributeError: list object has no attribute lower"

/-- The per-file dictionaries of `FileToColumnEntries` read by
`save_search_settings_to_file` (other than `file2mods`, which that function
also writes and is therefore part of the mutable state). -/
structure SearchIn where
  file2label : List (String × List String)
  file2pctol : List (String × String)
  file2pctolunit : List (String × String)
  file2fragtol : List (String × String)
  file2fragtolunit : List (String × String)
  file2diss : List (String × String)
  file2enzyme : List (String × String)

/-- One emitted row of the search-settings table (openms.py lines
1115–1128). -/
structure SearchRow where
  uri : String
  filename : String
  fixedMods : String
  varMods : String
  acquisition : String
  label : String
  pctol : String
  pctolunit : String
  fragtol : String
  fragtolunit : String
  diss : String
  enzyme : String
deriving DecidableEq

/-- Mutable state of the `save_search_settings_to_file` loop: the `raws`
first-occurrence list, the (shared, mutated-in-place) `file2mods` dict, the
warning ledger and the emitted rows. -/
structure SearchSt where
  raws : List String
  file2mods : List (String × (String × String))
  warnings : List String
  rows : List SearchRow

/-- The acquisition-method block (openms.py lines 1040–1050): a missing
column warns and defaults; a value with a `;` takes the text after `=` in its
first `;`-part (an absent `=` raises `IndexError`). -/
def acqResolve : Option String → Except String (String × List String)
  | none =>
    Except.ok ("Data-Dependent Acquisition",
      ["The comment[proteomics data acquisition method] column is missing, default Data-Dependent Acquisition"])
  | some am =>
    if 1 < (pySplitS ";" am).length then
      match pySplitS "=" ((pySplitS ";" am).headI) with
      | _ :: v :: _ => Except.ok (v, [])
      | _ => Except.error "IndexError: split on = has no second part"
    else Except.ok (am, [])

/-- The label branch of `save_search_settings_to_file` (openms.py lines
1058–1109), including the default-modification injection into `file2mods`.
Note the family tests: `"TMT"` (upper case) on the joined labels, set
membership of `"label free sample"`, `"silac"` (lower case!) on the joined
labels, `"ITRAQ"` (upper case).  Returns the resolved label, the updated
`file2mods` and the warnings recorded. -/
def searchLabelBranch (fmods : List (String × (String × String)))
    (raw : String) (labels : List String) :
    Except String (String × List (String × (String × String)) × List String) :=
  let labels_str := pyJoinStr "," labels
  let label_set := labels.toFinset
  if pyIn "TMT" labels_str then do
    let label := infer_tmtplex label_set
    let mods ← keyErr "KeyError: file2mods" (dictGet? fmods raw)
    if !(pyIn "TMT" mods.1) && !(pyIn "TMT" mods.2) then do
      let pair ← keyErr "KeyError: TMT_mod" (dictGet? TMT_mod label)
      let newVar :=
        if mods.2 ≠ "" then pyJoinStr "," (pySplitS "," mods.2 ++ pair)
        else pyJoinStr "," pair
      Except.ok (label, dictInsert fmods raw (mods.1, newVar),
        ["The sdrf with TMT label doesn't contain TMT modification. Adding default variable modifications."])
    else Except.ok (label, fmods, [])
  else if "label free sample" ∈ label_set then
    Except.ok ("label free sample", fmods, [])
  else if pyIn "silac" labels_str then
    Except.ok ("SILAC", fmods, [])
  else if pyIn "ITRAQ" labels_str then do
    let label :=
      if 4 < label_set.card ∨ "ITRAQ113" ∈ label_set ∨ "ITRAQ118" ∈ label_set
          ∨ "ITRAQ119" ∈ label_set ∨ "ITRAQ121" ∈ label_set then "itraq8plex"
      else "itraq4plex"
    let mods ← keyErr "KeyError: file2mods" (dictGet? fmods raw)
    if !(pyIn "ITRAQ" mods.1) && !(pyIn "ITRAQ" mods.2) then do
      let pair ← keyErr "KeyError: ITRAQ_mod" (dictGet? ITRAQ_mod label)
      let newVar :=
        if mods.2 ≠ "" then pyJoinStr "," (pySplitS "," mods.2 ++ pair)
        else pyJoinStr "," pair
      Except.ok (label, dictInsert fmods raw (mods.1, newVar),
        ["The sdrf with ITRAQ label doesn't contain label modification. Adding default variable modifications."])
    else Except.ok (label, fmods, [])
  else
    Except.error "Failed to find any supported labels."

/-- One iteration of the `save_search_settings_to_file` loop (openms.py lines
1037–1128).  The acquisition warning precedes the `raw in raws` skip, as in
the source; per line 1113 the emitted `Filename` is the raw name — the
extension-conversion option is deliberately not applied there. -/
def searchStep (sin : SearchIn) (st : SearchSt) (row : Row) :
    Except String SearchSt := do
  let raw := row.dataFile
  let acq ← acqResolve row.acquisition
  if st.raws.contains raw then
    Except.ok { st with warnings := st.warnings ++ acq.2 }
  else do
    let labels ← keyErr "KeyError: file2label" (dictGet? sin.file2label raw)
    let lres ← searchLabelBranch st.file2mods raw labels
    let modsE ← keyErr "KeyError: file2mods" (dictGet? lres.2.1 raw)
    let p1 ← keyErr "KeyError: file2pctol" (dictGet? sin.file2pctol raw)
    let p2 ← keyErr "KeyError: file2pctolunit" (dictGet? sin.file2pctolunit raw)
    let p3 ← keyErr "KeyError: file2fragtol" (dictGet? sin.file2fragtol raw)
    let p4 ← keyErr "KeyError: file2fragtolunit" (dictGet? sin.file2fragtolunit raw)
    let d ← keyErr "KeyError: file2diss" (dictGet? sin.file2diss raw)
    let e ← keyErr "KeyError: file2enzyme" (dictGet? sin.file2enzyme raw)
    Except.ok
      { raws := st.raws ++ [raw]
        file2mods := lres.2.1
        warnings := st.warnings ++ acq.2 ++ lres.2.2
        rows := st.rows ++
          [{ uri := row.uri, filename := raw, fixedMods := modsE.1,
             varMods := modsE.2, acquisition := acq.1, label := lres.1,
             pctol := p1, pctolunit := p2, fragtol := p3, fragtolunit := p4,
             diss := d, enzyme := e }] }

/-- The whole `save_search_settings_to_file` loop, starting from the given
`file2mods` dict (openms.py lines 1005–1131). -/
def searchSettingsRun (sin : SearchIn) (fmods : List (String × (String × String)))
    (rows : List Row) : Except String SearchSt :=
  rows.foldlM (searchStep sin)
    { raws := [], file2mods := fmods, warnings := [], rows := [] }

/-- `combine_factors_to_conditions` (openms.py lines 574–591): join the
row's factor values with `|`; fall back to the (redundancy-filtered)
characteristic values; if both joins are empty the condition is `None` and a
warning is recorded.  Returns the condition and the warnings. -/
def combine_factors_to_conditions (factorVals charVals : List String) :
    Option String × List String :=
  let combined := pyJoinStr "|" factorVals
  if combined = "" then
    let combined2 := pyJoinStr "|" charVals
    if combined2 = "" then
      (none, ["No factors specified. Adding dummy factor used as condition."])
    else
      (some combined2,
       ["No factors specified. Adding non-redundant characteristics as factor. Will be used as condition. "])
  else (some combined, [])

/-- A row restricted to the cells `openms_convert` reads when filling
`file2combined_factors`. -/
structure FRow where
  dataFile : String
  labelCell : String
  factorVals : List String
  charVals : List String

/-- The `file2combined_factors` writes of the first pass of `openms_convert`
(openms.py line 497), keyed by the string concatenation
`raw + row["comment[label]"]`.  The incoming dictionary `st` is the
`FileToColumnEntries.file2combined_factors` *class attribute* (openms.py
lines 23–35): the dicts are defined with initialisers at class scope, so
`FileToColumnEntries()` instances share them and every `openms_convert`
invocation keeps writing into the same dict object — the state of a previous
invocation is the starting state of the next. -/
def factorsPass (st : List (String × Option String)) (rows : List FRow) :
    List (String × Option String) :=
  rows.foldl
    (fun m r =>
      dictInsert m (r.dataFile ++ r.labelCell)
        (combine_factors_to_conditions r.factorVals r.charVals).1)
    st

/-- `Counter(f2c.file2combined_factors.values()).keys()` (openms.py line
501): the distinct condition values in first-occurrence order.  With
`split_by_columns` this list drives how many output file pairs are written
(openms.py lines 538–545). -/
def conditionsOf (m : List (String × Option String)) : List (Option String) :=
  pyDedup (m.map (fun p => p.2))

/-- One-row table whose only technical replicate is `2`: the writer inputs
produced by the first pass of `openms_convert` for a single label-free file
of source `s` with `comment[technical replicate] = 2`. -/
def repTwoIn : DesignIn :=
  { file2technical_rep := [("f.raw", "2")]
    source_name_list := ["s"]
    source_name2n_reps := [("s", 2)]
    file2label := [("f.raw", ["label free sample"])]
    file2fraction := [("f.raw", "1")]
    file2combined_factors := [("f.rawlabel free sample", some "c1")]
    extension_convert := none }

/-- The row of `repTwoIn`. -/
def repTwoRows : List Row :=
  [{ dataFile := "f.raw", sourceName := "s", labelCell := "label free sample",
     uri := "u1", acquisition := some "DDA" }]

/-- Writer inputs for a TMT table in which file `F.raw` carries two label
channels whose rows name the source samples `B` (row 2) and `A` (row 3),
while file `f1.raw` belongs to source `A` (row 1); `A` is encountered first,
so `source_name_list = [A, B]`. -/
def reassignIn : DesignIn :=
  { file2technical_rep := [("f1.raw", "1"), ("F.raw", "1")]
    source_name_list := ["A", "B"]
    source_name2n_reps := [("A", 1), ("B", 1)]
    file2label := [("f1.raw", ["TMT126"]), ("F.raw", ["TMT126", "TMT127"])]
    file2fraction := [("f1.raw", "1"), ("F.raw", "1")]
    file2combined_factors := []
    extension_convert := none }

/-- The rows of `reassignIn`, in table order. -/
def reassignRows : List Row :=
  [{ dataFile := "f1.raw", sourceName := "A", labelCell := "NT=TMT126",
     uri := "u1", acquisition := some "DDA" },
   { dataFile := "F.raw", sourceName := "B", labelCell := "NT=TMT126",
     uri := "u2", acquisition := some "DDA" },
   { dataFile := "F.raw", sourceName := "A", labelCell := "NT=TMT127",
     uri := "u2", acquisition := some "DDA" }]

/-- Writer inputs for a single source sample `sample 1` with technical
replicates 1, 2 and 3, one label-free file each. -/
def reps123In : DesignIn :=
  { file2technical_rep := [("a.raw", "1"), ("b.raw", "2"), ("c.raw", "3")]
    source_name_list := ["sample 1"]
    source_name2n_reps := [("sample 1", 3)]
    file2label := [("a.raw", ["label free sample"]), ("b.raw", ["label free sample"]),
                   ("c.raw", ["label free sample"])]
    file2fraction := [("a.raw", "1"), ("b.raw", "1"), ("c.raw", "1")]
    file2combined_factors := []
    extension_convert := none }

/-- The rows of `reps123In`. -/
def reps123Rows : List Row :=
  [{ dataFile := "a.raw", sourceName := "sample 1", labelCell := "label free sample",
     uri := "u1", acquisition := some "DDA" },
   { dataFile := "b.raw", sourceName := "sample 1", labelCell := "label free sample",
     uri := "u2", acquisition := some "DDA" },
   { dataFile := "c.raw", sourceName := "sample 1", labelCell := "label free sample",
     uri := "u3", acquisition := some "DDA" }]

/-- `reps123In` extended by a second source sample `sample 2` with technical
replicates 1 and 2. -/
def reps123x2In : DesignIn :=
  { file2technical_rep := [("a.raw", "1"), ("b.raw", "2"), ("c.raw", "3"),
                           ("d.raw", "1"), ("e.raw", "2")]
    source_name_list := ["sample 1", "sample 2"]
    source_name2n_reps := [("sample 1", 3), ("sample 2", 2)]
    file2label := [("a.raw", ["label free sample"]), ("b.raw", ["label free sample"]),
                   ("c.raw", ["label free sample"]), ("d.raw", ["label free sample"]),
                   ("e.raw", ["label free sample"])]
    file2fraction := [("a.raw", "1"), ("b.raw", "1"), ("c.raw", "1"),
                      ("d.raw", "1"), ("e.raw", "1")]
    file2combined_factors := []
    extension_convert := none }

/-- The rows of `reps123x2In`. -/
def reps123x2Rows : List Row :=
  reps123Rows ++
  [{ dataFile := "d.raw", sourceName := "sample 2", labelCell := "label free sample",
     uri := "u4", acquisition := some "DDA" },
   { dataFile := "e.raw", sourceName := "sample 2", labelCell := "label free sample",
     uri := "u5", acquisition := some "DDA" }]

/-- Writer inputs for a single file whose two label tokens are the
upper-case SILAC tiers `SILAC light` / `SILAC heavy` (the cell text as
collected by openms.py lines 475–476). -/
def silacUpperIn : DesignIn :=
  { file2technical_rep := [("f.raw", "1")]
    source_name_list := ["sample 1"]
    source_name2n_reps := [("sample 1", 1)]
    file2label := [("f.raw", ["SILAC light", "SILAC heavy"])]
    file2fraction := [("f.raw", "1")]
    file2combined_factors := [("f.rawSILAC light", some "c1"), ("f.rawSILAC heavy", some "c1")]
    extension_convert := none }

/-- The rows of `silacUpperIn`: one per label channel of `f.raw`. -/
def silacUpperRows : List Row :=
  [{ dataFile := "f.raw", sourceName := "sample 1", labelCell := "SILAC light",
     uri := "u1", acquisition := some "DDA" },
   { dataFile := "f.raw", sourceName := "sample 1", labelCell := "SILAC heavy",
     uri := "u1", acquisition := some "DDA" }]

/-- `silacUpperIn` with the label tokens in lower case. -/
def silacLowerIn : DesignIn :=
  { silacUpperIn with
    file2label := [("f.raw", ["silac light", "silac heavy"])]
    file2combined_factors := [("f.rawsilac light", some "c1"), ("f.rawsilac heavy", some "c1")] }

/-- The rows of `silacLowerIn`. -/
def silacLowerRows : List Row :=
  [{ dataFile := "f.raw", sourceName := "sample 1", labelCell := "silac light",
     uri := "u1", acquisition := some "DDA" },
   { dataFile := "f.raw", sourceName := "sample 1", labelCell := "silac heavy",
     uri := "u1", acquisition := some "DDA" }]

/-- Search-settings dictionaries for the single file `f.raw` of the SILAC
inputs, with the labels passed as a parameter. -/
def silacSearchIn (labels : List String) : SearchIn :=
  { file2label := [("f.raw", labels)]
    file2pctol := [("f.raw", "10")]
    file2pctolunit := [("f.raw", "ppm")]
    file2fragtol := [("f.raw", "20")]
    file2fragtolunit := [("f.raw", "ppm")]
    file2diss := [("f.raw", "HCD")]
    file2enzyme := [("f.raw", "Trypsin")] }

/-- First-pass state rows for the leak example: one conversion on a table
with file `a.raw` and factor value `c1`. -/
def leakRowsA : List FRow :=
  [{ dataFile := "a.raw", labelCell := "label free sample",
     factorVals := ["c1"], charVals := [] }]

/-- Second conversion input for the leak example: an unrelated table with
file `b.raw` and factor value `c2`. -/
def leakRowsB : List FRow :=
  [{ dataFile := "b.raw", labelCell := "label free sample",
     factorVals := ["c2"], charVals := [] }]

/-- An eleven-member TMT label set containing both `TMT131C` and the
18-plex marker `TMT134C`. -/
def tmtElevenWith134C : Finset String :=
  {"TMT126", "TMT127N", "TMT127C", "TMT128N", "TMT128C", "TMT129N",
   "TMT129C", "TMT130N", "TMT130C", "TMT131C", "TMT134C"}

/-- The display name of a modification descriptor (openms.py lines
245–251): the `NT=` value capitalised, overridden by the lookup
collaborator's canonical name when the accession is found. -/
def resolvedName (lookup : String → Option String) (ac nt : String) : String :=
  match lookup ac with
  | some n => n
  | none => String.mk (pyCapitalizeC nt.data)

/-- Inversion for a successful `Except` bind. -/
theorem bindOk {α β : Type} {x : Except String α} {f : α → Except String β}
    {b : β} (h : x >>= f = Except.ok b) : ∃ a, x = Except.ok a ∧ f a = Except.ok b := by
  cases x with
  | ok a => exact ⟨a, rfl, h⟩
  | error e => cases h

/-- Looking up the key just inserted returns the inserted value. -/
theorem dictGet?_insert_self {K V : Type} [DecidableEq K]
    (d : List (K × V)) (k : K) (v : V) : dictGet? (dictInsert d k v) k = some v := by
  induction d with
  | nil => simp [dictInsert, dictGet?]
  | cons p t ih =>
    by_cases h : p.1 = k
    · simp [dictInsert, dictGet?, h]
    · simpa [dictInsert, dictGet?, h] using ih

/-- A successful `stripPfx` witnesses a prefix decomposition. -/
theorem stripPfx_append {sep s r : List Char} (h : stripPfx sep s = some r) :
    s = sep ++ r := by
  induction sep generalizing s with
  | nil =>
    simp only [stripPfx, Option.some.injEq] at h
    simpa using h
  | cons a xs ih =>
    cases s with
    | nil => cases h
    | cons b ys =>
      by_cases hab : a = b
      · subst hab
        simp only [stripPfx, if_pos rfl] at h
        simpa using ih h
      · simp [stripPfx, hab] at h

/-- A successful `findSep` witnesses the decomposition of the string at the
first separator occurrence. -/
theorem findSep_decomp {sep s pre post : List Char}
    (h : findSep sep s = some (pre, post)) : s = pre ++ sep ++ post := by
  induction s generalizing pre with
  | nil => cases h
  | cons c t ih =>
    rw [findSep] at h
    cases hp : stripPfx sep (c :: t) with
    | some rest =>
      rw [hp] at h
      cases h
      simpa using stripPfx_append hp
    | none =>
      rw [hp] at h
      cases hf : findSep sep t with
      | none => rw [hf] at h; cases h
      | some p =>
        rw [hf] at h
        cases h
        simpa using congrArg (c :: ·) (ih (by simpa using hf))

/-- After a found separator the remainder is strictly shorter, for a
non-empty separator. -/
theorem findSep_post_length {sep s pre post : List Char} (hsep : sep ≠ [])
    (h : findSep sep s = some (pre, post)) : post.length < s.length := by
  have hd := findSep_decomp h
  subst hd
  have : 1 ≤ sep.length := List.length_pos.mpr hsep
  simp [List.length_append]
  omega

/-- `pyJoinC` over a cons with a non-empty tail. -/
theorem pyJoinC_cons {sep : List Char} {x : List Char} {ys : List (List Char)}
    (h : ys ≠ []) : pyJoinC sep (x :: ys) = x ++ sep ++ pyJoinC sep ys := by
  cases ys with
  | nil => cases h rfl
  | cons y t => rfl

/-- The fuelled splitter never returns an empty list of parts. -/
theorem pySplitF_ne_nil (sep : List Char) (k : Nat) (s : List Char) :
    pySplitF sep k s ≠ [] := by
  cases k with
  | zero => simp [pySplitF]
  | succ n =>
    rw [pySplitF]
    cases h : findSep sep s with
    | none => simp
    | some p => simp

/-- `pySplitC` never returns an empty list of parts. -/
theorem pySplitC_ne_nil (sep s : List Char) : pySplitC sep s ≠ [] := by
  rw [pySplitC]
  split
  · simp
  · exact pySplitF_ne_nil sep (s.length + 1) s

/-- `pySplitS` never returns an empty list of parts. -/
theorem pySplitS_ne_nil (sep s : String) : pySplitS sep s ≠ [] := by
  simpa [pySplitS] using pySplitC_ne_nil sep.data s.data

/-- Join undoes the fuelled split when the fuel covers the string length. -/
theorem pyJoinC_pySplitF {sep : List Char} (hsep : sep ≠ []) :
    ∀ (k : Nat) (s : List Char), s.length < k →
      pyJoinC sep (pySplitF sep k s) = s := by
  intro k
  induction k with
  | zero => intro s hs; omega
  | succ n ih =>
    intro s hs
    rw [pySplitF]
    cases h : findSep sep s with
    | none => rfl
    | some p =>
      obtain ⟨pre, post⟩ := p
      have hlen := findSep_post_length hsep h
      have hrec := ih post (by omega)
      rw [pyJoinC_cons (pySplitF_ne_nil sep n post), hrec]
      exact (findSep_decomp h).symm

/-- Join undoes split (character level), for a non-empty separator. -/
theorem pyJoinC_pySplitC {sep : List Char} (hsep : sep ≠ []) (s : List Char) :
    pyJoinC sep (pySplitC sep s) = s := by
  rw [pySplitC]
  rw [if_neg (by simpa using hsep)]
  exact pyJoinC_pySplitF hsep (s.length + 1) s (by omega)

/-- Appending two `String.mk`s is `String.mk` of the appended data. -/
theorem strMk_append (a b : List Char) :
    String.mk a ++ String.mk b = String.mk (a ++ b) := rfl

/-- `pyJoinStr` over mapped `String.mk` parts is `String.mk` of the
character-level join. -/
theorem pyJoinStr_map_mk (sep : String) (parts : List (List Char)) :
    pyJoinStr sep (parts.map String.mk) = String.mk (pyJoinC sep.data parts) := by
  induction parts with
  | nil => rfl
  | cons x t ih =>
    cases t with
    | nil => rfl
    | cons y u =>
      simp only [List.map, pyJoinStr, pyJoinC] at *
      rw [ih]
      cases sep
      simp [strMk_append]

/-- Join undoes split (string level), for a non-empty separator. -/
theorem pyJoinStr_pySplitS {sep : String} (hsep : sep.data ≠ []) (s : String) :
    pyJoinStr sep (pySplitS sep s) = s := by
  rw [pySplitS, pyJoinStr_map_mk, pyJoinC_pySplitC hsep]

/-- `pyJoinStr` over a cons with a non-empty tail. -/
theorem pyJoinStr_cons {sep x : String} {ys : List String} (h : ys ≠ []) :
    pyJoinStr sep (x :: ys) = x ++ sep ++ pyJoinStr sep ys := by
  cases ys with
  | nil => cases h rfl
  | cons y t => rfl

/-- String append is associative (via the underlying character lists). -/
theorem strAssoc (a b c : String) : a ++ b ++ c = a ++ (b ++ c) := by
  cases a with | mk la =>
  cases b with | mk lb =>
  cases c with | mk lc =>
  show String.mk (la ++ lb ++ lc) = String.mk (la ++ (lb ++ lc))
  rw [List.append_assoc]

/-- `pyJoinStr` distributes over append of two non-empty part lists. -/
theorem pyJoinStr_append (sep : String) (xs ys : List String)
    (hx : xs ≠ []) (hy : ys ≠ []) :
    pyJoinStr sep (xs ++ ys) = pyJoinStr sep xs ++ sep ++ pyJoinStr sep ys := by
  induction xs with
  | nil => cases hx rfl
  | cons x t ih =>
    cases t with
    | nil =>
      rw [List.singleton_append, pyJoinStr_cons hy]
      rfl
    | cons x2 t2 =>
      rw [List.cons_append, pyJoinStr_cons (by simp : x2 :: t2 ++ ys ≠ [])]
      rw [ih (by simp)]
      rw [pyJoinStr_cons (by simp : x2 :: t2 ≠ ([] : List String))]
      rw [strAssoc (x ++ sep), strAssoc (x ++ sep)]

/-- `applyExtRules` is determined by the first matching rule: with none the
name passes through, with one the rewrite of that rule is validated and the
remaining rules are ignored. -/
theorem applyExtRules_eq (raw_bkp raw : String) (rules : List (String × String)) :
    applyExtRules raw_bkp raw rules =
      match firstExtMatch raw rules with
      | none => Except.ok raw
      | some (cur, tgt) =>
        let r := pyRemoveSuffixS raw cur ++ tgt
        if possible_extension.any (fun x => pyEndsWith r x) then Except.ok r
        else Except.error (extErrMsg raw_bkp r) := by
  induction rules with
  | nil => rfl
  | cons p rest ih =>
    obtain ⟨cur, tgt⟩ := p
    by_cases h : pyEndsWith (pyLowerS raw) (pyLowerS cur) = true
    · simp [applyExtRules, firstExtMatch, h]
    · have hb : pyEndsWith (pyLowerS raw) (pyLowerS cur) = false := by
        simpa using h
      simp only [applyExtRules, firstExtMatch, hb]
      simpa using ih

/-- `infer_tmtplex` always lands in the five-name plex vocabulary. -/
theorem infer_tmtplex_cases (S : Finset String) :
    infer_tmtplex S = "tmt18plex" ∨ infer_tmtplex S = "tmt16plex"
    ∨ infer_tmtplex S = "tmt11plex" ∨ infer_tmtplex S = "tmt10plex"
    ∨ infer_tmtplex S = "tmt6plex" := by
  unfold infer_tmtplex
  split_ifs <;> simp

/-- Every plex name produced by `infer_tmtplex` has a two-element default
modification pair in `TMT_mod`. -/
theorem tmtModPair (S : Finset String) :
    ∃ p1 p2, dictGet? TMT_mod (infer_tmtplex S) = some [p1, p2] := by
  rcases infer_tmtplex_cases S with h | h | h | h | h <;> rw [h] <;>
    exact ⟨_, _, by rfl⟩

/-- No-skip property of the shared fraction-group block: whenever a row's
candidate fraction-group number occupies a new slot of `raw_frac`, the group
value recorded for the raw file equals the new `pre_frac_group` and is at
most one more than the previous `pre_frac_group`. -/
theorem fracUpdate_new_slot (raw : String) (fg : Int)
    (Fg : List (String × Int)) (rf : List (Int × List String)) (pre : Int)
    (Fg2 : List (String × Int)) (rf2 : List (Int × List String)) (pre2 v : Int)
    (hnew : dictGet? rf fg = none)
    (h : fracUpdate raw fg Fg rf pre = Except.ok (Fg2, rf2, pre2, v)) :
    v = pre2 ∧ pre2 ≤ pre + 1 ∧ dictGet? Fg2 raw = some v := by
  rw [fracUpdate, hnew] at h
  simp only [Except.ok.injEq, Prod.mk.injEq] at h
  obtain ⟨h1, h2, h3, h4⟩ := h
  subst h1; subst h2; subst h3; subst h4
  refine ⟨rfl, ?_, dictGet?_insert_self Fg raw _⟩
  cases hg : dictGet? Fg raw with
  | none => simp only [hg]; split_ifs <;> omega
  | some w => simp only [hg]; split_ifs <;> omega

/-- TMT default-modification injection at the `searchLabelBranch` level:
with a TMT label family and no `TMT` substring in either modification
string, the branch resolves the inferred plex, appends that plex's default
variable-modification pair to the file's variable modifications, and records
exactly one warning occurrence. -/
theorem searchLabelBranch_tmt (fmods : List (String × (String × String)))
    (raw : String) (labels : List String) (fx vr : String)
    (hjoin : pyIn "TMT" (pyJoinStr "," labels) = true)
    (hmods : dictGet? fmods raw = some (fx, vr))
    (hfx : pyIn "TMT" fx = false) (hvr : pyIn "TMT" vr = false) :
    ∃ p1 p2, dictGet? TMT_mod (infer_tmtplex labels.toFinset) = some [p1, p2] ∧
      searchLabelBranch fmods raw labels =
        Except.ok (infer_tmtplex labels.toFinset,
          dictInsert fmods raw
            (fx, if vr = "" then p1 ++ "," ++ p2 else vr ++ "," ++ (p1 ++ "," ++ p2)),
          ["The sdrf with TMT label doesn't contain TMT modification. Adding default variable modifications."]) := by
  obtain ⟨p1, p2, hp⟩ := tmtModPair labels.toFinset
  refine ⟨p1, p2, hp, ?_⟩
  simp only [searchLabelBranch, hjoin, if_true, keyErr, hmods, hp, hfx, hvr,
    bind, Except.bind, Bool.not_false, Bool.and_self, if_true]
  by_cases hv : vr = ""
  · simp only [hv, ne_eq, not_true_eq_false, if_neg, if_pos, ite_false, ite_true]
    simp [pyJoinStr]
  · simp only [ne_eq, hv, not_false_eq_true, ite_true, ite_false, if_neg hv]
    have hsplit : pySplitS "," vr ≠ [] := pySplitS_ne_nil "," vr
    have hpair : ([p1, p2] : List String) ≠ [] := by simp
    rw [pyJoinStr_append "," (pySplitS "," vr) [p1, p2] hsplit hpair]
    rw [pyJoinStr_pySplitS (by simp) vr]
    have : pyJoinStr "," [p1, p2] = p1 ++ "," ++ p2 := by simp [pyJoinStr]
    rw [this, strAssoc]


/-- iTRAQ 8-plex default-modification injection at the `searchLabelBranch`
level (no earlier family matches, the 8-plex condition holds, and neither
modification string contains `ITRAQ`). -/
theorem searchLabelBranch_itraq8 (fmods : List (String × (String × String)))
    (raw : String) (labels : List String) (fx vr : String)
    (htmt : pyIn "TMT" (pyJoinStr "," labels) = false)
    (hlf : "label free sample" ∉ labels.toFinset)
    (hsilac : pyIn "silac" (pyJoinStr "," labels) = false)
    (hitraq : pyIn "ITRAQ" (pyJoinStr "," labels) = true)
    (hmods : dictGet? fmods raw = some (fx, vr))
    (hfx : pyIn "ITRAQ" fx = false) (hvr : pyIn "ITRAQ" vr = false)
    (h8 : 4 < labels.toFinset.card ∨ "ITRAQ113" ∈ labels.toFinset
      ∨ "ITRAQ118" ∈ labels.toFinset ∨ "ITRAQ119" ∈ labels.toFinset
      ∨ "ITRAQ121" ∈ labels.toFinset) :
      searchLabelBranch fmods raw labels =
        Except.ok ("itraq8plex",
          dictInsert fmods raw
            (fx, if vr = "" then "iTRAQ8plex (K)" ++ "," ++ "iTRAQ8plex (N-term)"
                 else vr ++ "," ++ ("iTRAQ8plex (K)" ++ "," ++ "iTRAQ8plex (N-term)")),
          ["The sdrf with ITRAQ label doesn't contain label modification. Adding default variable modifications."]) := by
  simp only [searchLabelBranch, htmt, hsilac, hitraq, keyErr, hmods, hfx, hvr,
    bind, Except.bind, Bool.false_eq_true, if_false, if_true, ite_true, ite_false]
  rw [if_neg hlf, if_pos h8]
  simp only [dictGet?, ITRAQ_mod, if_neg, if_pos, ite_true, ite_false, Except.bind]
  have key : pyJoinStr "," (pySplitS "," vr ++ ["iTRAQ8plex (K)", "iTRAQ8plex (N-term)"]) =
      vr ++ "," ++ ("iTRAQ8plex (K)" ++ "," ++ "iTRAQ8plex (N-term)") := by
    rw [pyJoinStr_append "," _ _ (pySplitS_ne_nil "," vr) (by simp),
      pyJoinStr_pySplitS (by simp) vr]
    simp [pyJoinStr, strAssoc]
  by_cases hv : vr = ""
  · simp [hv, pyJoinStr]
  · simp [hv, key]

/-- iTRAQ 4-plex default-modification injection at the `searchLabelBranch`
level (the 8-plex condition fails). -/
theorem searchLabelBranch_itraq4 (fmods : List (String × (String × String)))
    (raw : String) (labels : List String) (fx vr : String)
    (htmt : pyIn "TMT" (pyJoinStr "," labels) = false)
    (hlf : "label free sample" ∉ labels.toFinset)
    (hsilac : pyIn "silac" (pyJoinStr "," labels) = false)
    (hitraq : pyIn "ITRAQ" (pyJoinStr "," labels) = true)
    (hmods : dictGet? fmods raw = some (fx, vr))
    (hfx : pyIn "ITRAQ" fx = false) (hvr : pyIn "ITRAQ" vr = false)
    (h8 : ¬(4 < labels.toFinset.card ∨ "ITRAQ113" ∈ labels.toFinset
      ∨ "ITRAQ118" ∈ labels.toFinset ∨ "ITRAQ119" ∈ labels.toFinset
      ∨ "ITRAQ121" ∈ labels.toFinset)) :
      searchLabelBranch fmods raw labels =
        Except.ok ("itraq4plex",
          dictInsert fmods raw
            (fx, if vr = "" then "iTRAQ4plex (K)" ++ "," ++ "iTRAQ4plex (N-term)"
                 else vr ++ "," ++ ("iTRAQ4plex (K)" ++ "," ++ "iTRAQ4plex (N-term)")),
          ["The sdrf with ITRAQ label doesn't contain label modification. Adding default variable modifications."]) := by
  simp only [searchLabelBranch, htmt, hsilac, hitraq, keyErr, hmods, hfx, hvr,
    bind, Except.bind, Bool.false_eq_true, if_false, if_true, ite_true, ite_false]
  rw [if_neg hlf, if_neg h8]
  simp only [dictGet?, ITRAQ_mod, if_neg, if_pos, ite_true, ite_false, Except.bind]
  have key : pyJoinStr "," (pySplitS "," vr ++ ["iTRAQ4plex (K)", "iTRAQ4plex (N-term)"]) =
      vr ++ "," ++ ("iTRAQ4plex (K)" ++ "," ++ "iTRAQ4plex (N-term)") := by
    rw [pyJoinStr_append "," _ _ (pySplitS_ne_nil "," vr) (by simp),
      pyJoinStr_pySplitS (by simp) vr]
    simp [pyJoinStr, strAssoc]
  by_cases hv : vr = ""
  · simp [hv, pyJoinStr]
  · simp [hv, key]

/-- Reduction of a whole successful `searchStep` iteration from the results
of its components. -/
theorem searchStep_ok (sin : SearchIn) (st : SearchSt) (row : Row) (am : String)
    (labels : List String) (lbl : String)
    (fmods2 : List (String × (String × String))) (ws : List String)
    (fx2 vr2 pt ptu ft ftu di en : String)
    (hacq : row.acquisition = some am)
    (hlen : (pySplitS ";" am).length ≤ 1)
    (hskip : st.raws.contains row.dataFile = false)
    (hlab : dictGet? sin.file2label row.dataFile = some labels)
    (hbranch : searchLabelBranch st.file2mods row.dataFile labels = Except.ok (lbl, fmods2, ws))
    (hmods2 : dictGet? fmods2 row.dataFile = some (fx2, vr2))
    (h1 : dictGet? sin.file2pctol row.dataFile = some pt)
    (h2 : dictGet? sin.file2pctolunit row.dataFile = some ptu)
    (h3 : dictGet? sin.file2fragtol row.dataFile = some ft)
    (h4 : dictGet? sin.file2fragtolunit row.dataFile = some ftu)
    (h5 : dictGet? sin.file2diss row.dataFile = some di)
    (h6 : dictGet? sin.file2enzyme row.dataFile = some en) :
    searchStep sin st row = Except.ok
      { raws := st.raws ++ [row.dataFile]
        file2mods := fmods2
        warnings := st.warnings ++ ws
        rows := st.rows ++
          [{ uri := row.uri, filename := row.dataFile, fixedMods := fx2,
             varMods := vr2, acquisition := am, label := lbl,
             pctol := pt, pctolunit := ptu, fragtol := ft, fragtolunit := ftu,
             diss := di, enzyme := en }] } := by
  have hnl : ¬ 1 < (pySplitS ";" am).length := Nat.not_lt.mpr hlen
  simp only [searchStep, hacq, acqResolve, hnl, if_false, ite_false, hskip,
    bind, Except.bind, keyErr, hlab, hbranch, hmods2, h1, h2, h3, h4, h5, h6,
    List.append_nil, Bool.false_eq_true]

/-- Claim C1 (amended): `infer_tmtplex` classifies by the priority ladder —
size > 16 or `TMT134C`/`TMT135N` give `tmt18plex`; else size > 11 or one of
the five 16-plex markers gives `tmt16plex`; else size 11 or `TMT131C` gives
`tmt11plex`; else size > 6 gives `tmt10plex`; else `tmt6plex` (stated as an
exact characterisation of each outcome).  In particular an 11-member set
containing `TMT131C` *and none of the seven higher markers* resolves
`tmt11plex`, and a 12-to-16-member set without `TMT134C`/`TMT135N` resolves
`tmt16plex`.  (The original claim omitted the higher-marker proviso on the
11-member case; see the counterexample.) -/
theorem C1_tmt_ladder (S : Finset String) :
    (infer_tmtplex S = "tmt18plex" ↔
      16 < S.card ∨ "TMT134C" ∈ S ∨ "TMT135N" ∈ S) ∧
    (infer_tmtplex S = "tmt16plex" ↔
      ¬(16 < S.card ∨ "TMT134C" ∈ S ∨ "TMT135N" ∈ S) ∧
      (11 < S.card ∨ "TMT134N" ∈ S ∨ "TMT133C" ∈ S ∨ "TMT133N" ∈ S
        ∨ "TMT132C" ∈ S ∨ "TMT132N" ∈ S)) ∧
    (infer_tmtplex S = "tmt11plex" ↔
      ¬(16 < S.card ∨ "TMT134C" ∈ S ∨ "TMT135N" ∈ S) ∧
      ¬(11 < S.card ∨ "TMT134N" ∈ S ∨ "TMT133C" ∈ S ∨ "TMT133N" ∈ S
        ∨ "TMT132C" ∈ S ∨ "TMT132N" ∈ S) ∧
      (S.card = 11 ∨ "TMT131C" ∈ S)) ∧
    (infer_tmtplex S = "tmt10plex" ↔
      ¬(16 < S.card ∨ "TMT134C" ∈ S ∨ "TMT135N" ∈ S) ∧
      ¬(11 < S.card ∨ "TMT134N" ∈ S ∨ "TMT133C" ∈ S ∨ "TMT133N" ∈ S
        ∨ "TMT132C" ∈ S ∨ "TMT132N" ∈ S) ∧
      ¬(S.card = 11 ∨ "TMT131C" ∈ S) ∧ 6 < S.card) ∧
    (infer_tmtplex S = "tmt6plex" ↔
      ¬(16 < S.card ∨ "TMT134C" ∈ S ∨ "TMT135N" ∈ S) ∧
      ¬(11 < S.card ∨ "TMT134N" ∈ S ∨ "TMT133C" ∈ S ∨ "TMT133N" ∈ S
        ∨ "TMT132C" ∈ S ∨ "TMT132N" ∈ S) ∧
      ¬(S.card = 11 ∨ "TMT131C" ∈ S) ∧ ¬ 6 < S.card) ∧
    (S.card = 11 → "TMT131C" ∈ S →
      "TMT134C" ∉ S → "TMT135N" ∉ S → "TMT134N" ∉ S → "TMT133C" ∉ S →
      "TMT133N" ∉ S → "TMT132C" ∉ S → "TMT132N" ∉ S →
      infer_tmtplex S = "tmt11plex") ∧
    (12 ≤ S.card → S.card ≤ 16 → "TMT134C" ∉ S → "TMT135N" ∉ S →
      infer_tmtplex S = "tmt16plex") := by
  have i18 : infer_tmtplex S = "tmt18plex" ↔
      16 < S.card ∨ "TMT134C" ∈ S ∨ "TMT135N" ∈ S := by
    unfold infer_tmtplex; split_ifs with h1 h2 h3 h4 <;> simp_all
  have i16 : infer_tmtplex S = "tmt16plex" ↔
      ¬(16 < S.card ∨ "TMT134C" ∈ S ∨ "TMT135N" ∈ S) ∧
      (11 < S.card ∨ "TMT134N" ∈ S ∨ "TMT133C" ∈ S ∨ "TMT133N" ∈ S
        ∨ "TMT132C" ∈ S ∨ "TMT132N" ∈ S) := by
    unfold infer_tmtplex; split_ifs with h1 h2 h3 h4 <;> simp_all
  have i11 : infer_tmtplex S = "tmt11plex" ↔
      ¬(16 < S.card ∨ "TMT134C" ∈ S ∨ "TMT135N" ∈ S) ∧
      ¬(11 < S.card ∨ "TMT134N" ∈ S ∨ "TMT133C" ∈ S ∨ "TMT133N" ∈ S
        ∨ "TMT132C" ∈ S ∨ "TMT132N" ∈ S) ∧
      (S.card = 11 ∨ "TMT131C" ∈ S) := by
    unfold infer_tmtplex; split_ifs with h1 h2 h3 h4 <;> simp_all
  have i10 : infer_tmtplex S = "tmt10plex" ↔
      ¬(16 < S.card ∨ "TMT134C" ∈ S ∨ "TMT135N" ∈ S) ∧
      ¬(11 < S.card ∨ "TMT134N" ∈ S ∨ "TMT133C" ∈ S ∨ "TMT133N" ∈ S
        ∨ "TMT132C" ∈ S ∨ "TMT132N" ∈ S) ∧
      ¬(S.card = 11 ∨ "TMT131C" ∈ S) ∧ 6 < S.card := by
    unfold infer_tmtplex; split_ifs with h1 h2 h3 h4 <;> simp_all
  have i6 : infer_tmtplex S = "tmt6plex" ↔
      ¬(16 < S.card ∨ "TMT134C" ∈ S ∨ "TMT135N" ∈ S) ∧
      ¬(11 < S.card ∨ "TMT134N" ∈ S ∨ "TMT133C" ∈ S ∨ "TMT133N" ∈ S
        ∨ "TMT132C" ∈ S ∨ "TMT132N" ∈ S) ∧
      ¬(S.card = 11 ∨ "TMT131C" ∈ S) ∧ ¬ 6 < S.card := by
    unfold infer_tmtplex; split_ifs with h1 h2 h3 h4 <;> simp_all
  refine ⟨i18, i16, i11, i10, i6, ?_, ?_⟩
  · intro hc h131 m1 m2 m3 m4 m5 m6 m7
    apply i11.mpr
    refine ⟨?_, ?_, Or.inl hc⟩
    · rintro (hbig | hm | hm)
      · omega
      · exact m1 hm
      · exact m2 hm
    · rintro (hbig | hm | hm | hm | hm | hm)
      · omega
      · exact m3 hm
      · exact m4 hm
      · exact m5 hm
      · exact m6 hm
      · exact m7 hm
  · intro hlo hhi m1 m2
    apply i16.mpr
    refine ⟨?_, Or.inl (by omega)⟩
    rintro (hbig | hm | hm)
    · omega
    · exact m1 hm
    · exact m2 hm

/-- Counterexample to claim C1 as stated: an eleven-member label set
containing `TMT131C` need not resolve `tmt11plex` — with `TMT134C` also
present the first rung fires and the result is `tmt18plex`. -/
theorem C1_tmt_ladder_cx :
    tmtElevenWith134C.card = 11 ∧ "TMT131C" ∈ tmtElevenWith134C ∧
    infer_tmtplex tmtElevenWith134C = "tmt18plex" ∧
    infer_tmtplex tmtElevenWith134C ≠ "tmt11plex" := by
  refine ⟨by decide, by decide, by decide, by decide⟩

/-- Witness for C1: the amended 11-member rule applied to the plain
`tmt11plex` channel set. -/
theorem C1_tmt_ladder_witness :
    infer_tmtplex
      ({"TMT126", "TMT127N", "TMT127C", "TMT128N", "TMT128C", "TMT129N",
        "TMT129C", "TMT130N", "TMT130C", "TMT131N", "TMT131C"} : Finset String)
      = "tmt11plex" :=
  (C1_tmt_ladder _).2.2.2.2.2.1 (by decide) (by decide) (by decide) (by decide)
    (by decide) (by decide) (by decide) (by decide) (by decide)

/-- Claim C2 (amended): fraction-group behaviour of the design-table
writers.  The one-table writer always fails (with an `AttributeError` at its
first statement) before assigning any fraction group.  For the two-table
writer, whenever a row's candidate number occupies a new `raw_frac` slot the
recorded group equals the new `pre_frac_group` and is at most one more than
the previous `pre_frac_group` (no skipped numbers at assignment time) — but
the numbers need not start at 1 and a file's number can change on a later
row (see the counterexample).  The concrete scenarios of the claim hold: a
single source sample with technical replicates 1, 2, 3 yields exactly the
groups 1, 2, 3, and a second source sample with two replicates receives 4
and 5. -/
theorem C2_fraction_groups :
    (∀ (din : DesignIn) (legacy : Bool) (rows : List Row),
      isOkB (writeOneTable din legacy rows) = false) ∧
    (∀ (raw : String) (fg : Int) (Fg : List (String × Int))
        (rf : List (Int × List String)) (pre : Int)
        (Fg2 : List (String × Int)) (rf2 : List (Int × List String)) (pre2 v : Int),
      dictGet? rf fg = none →
      fracUpdate raw fg Fg rf pre = Except.ok (Fg2, rf2, pre2, v) →
      v = pre2 ∧ pre2 ≤ pre + 1 ∧ dictGet? Fg2 raw = some v) ∧
    designFgs reps123In reps123Rows = Except.ok ["1", "2", "3"] ∧
    designFgs reps123x2In reps123x2Rows = Except.ok ["1", "2", "3", "4", "5"] := by
  refine ⟨?_, ?_, rfl, rfl⟩
  · intro din legacy rows
    cases rows with
    | nil => rfl
    | cons r t =>
      rw [writeOneTable]
      cases dictGet? din.file2label r.dataFile <;> rfl
  · intro raw fg Fg rf pre Fg2 rf2 pre2 v hnew h
    exact fracUpdate_new_slot raw fg Fg rf pre Fg2 rf2 pre2 v hnew h

/-- Counterexample to claim C2 as stated: a single-row table whose only
technical replicate is `2` is assigned fraction group 2 (the sequence does
not start at 1); and in the `reassignIn` table the file `F.raw` is emitted
with fraction group 2 on its second row and fraction group 1 on its third —
the assignment changes on a later row for the same file. -/
theorem C2_fraction_groups_cx :
    designFgs repTwoIn repTwoRows = Except.ok ["2"] ∧
    designFgs reassignIn reassignRows = Except.ok ["1", "2", "1"] ∧
    designPaths reassignIn reassignRows = Except.ok ["f1.raw", "F.raw", "F.raw"] ∧
    ("2" : String) ≠ "1" := by
  exact ⟨rfl, rfl, rfl, by decide⟩

/-- Witness for C2: the no-skip property applied to a concrete first
assignment. -/
theorem C2_fraction_groups_witness :
    (1 : Int) = 1 ∧ (1 : Int) ≤ 1 + 1 ∧
      dictGet? [("f.raw", (1 : Int))] "f.raw" = some 1 :=
  C2_fraction_groups.2.1 "f.raw" 1 [] [] 1 [("f.raw", 1)] [(1, ["f.raw"])] 1 1
    rfl rfl

/-- Claim C3 (code bug): the `FileToColumnEntries` dicts are class
attributes, so `file2combined_factors` persists from one `openms_convert`
invocation into the next.  Evaluating the modelled fragment: a fresh
conversion of table A yields the condition list `[c1]`; a later independent
conversion of table B started from A's retained state yields `[c1, c2]`,
whereas a fresh conversion of B yields `[c2]` — the first run's condition
leaks into the second (with `split_by_columns` this produces a spurious
extra output file pair).  Re-running the *same* input is idempotent at this
state: the second pass overwrites every key with the same value. -/
theorem C3_state_leak :
    conditionsOf (factorsPass [] leakRowsA) = [some "c1"] ∧
    conditionsOf (factorsPass (factorsPass [] leakRowsA) leakRowsB)
      = [some "c1", some "c2"] ∧
    conditionsOf (factorsPass [] leakRowsB) = [some "c2"] ∧
    factorsPass (factorsPass [] leakRowsA) leakRowsA = factorsPass [] leakRowsA := by
  exact ⟨rfl, rfl, rfl, rfl⟩

/-- Claim C5 (code bug): a modification descriptor with no `TA=` field and a
position class containing neither terminus does record the second warning
(`Reassignment not possible. Skipping.`), but the modification is *not*
dropped: `"".split(",")` is `[""]`, so the residue-anywhere branch emits the
malformed annotation `Testmod ()` into the comma-joined output. -/
theorem C5_missing_site_not_dropped :
    openms_ify_mod (fun _ => none) "NT=Testmod;AC=UNIMOD:999;PP=Anywhere;MT=variable"
      = Except.ok (["Testmod ()"],
        ["Warning no TA= specified. Setting to N-term or C-term if possible.",
         "Reassignment not possible. Skipping."]) ∧
    openms_ify_mods (fun _ => none) ["NT=Testmod;AC=UNIMOD:999;PP=Anywhere;MT=variable"]
      = Except.ok ("Testmod ()",
        ["Warning no TA= specified. Setting to N-term or C-term if possible.",
         "Reassignment not possible. Skipping."]) := by
  exact ⟨rfl, rfl⟩

/-- Claim C6 (code bug): SILAC family detection is case-sensitive and
inconsistent between the writers.  For the upper-case tokens
`SILAC light`/`SILAC heavy` the two-table design writer succeeds but the
search-settings writer aborts with the unrecognized-label fatal error; for
the lower-case tokens `silac light`/`silac heavy` it is the other way
around — so a conversion (which runs both) aborts for every uniform-case
SILAC spelling, contradicting the case-insensitivity stated by the spec. -/
theorem C6_silac_case_sensitivity :
    isOkB (writeTwoTable silacUpperIn silacUpperRows) = true ∧
    isOkB (searchSettingsRun (silacSearchIn ["SILAC light", "SILAC heavy"])
      [("f.raw", ("", ""))] silacUpperRows) = false ∧
    isOkB (writeTwoTable silacLowerIn silacLowerRows) = false ∧
    isOkB (searchSettingsRun (silacSearchIn ["silac light", "silac heavy"])
      [("f.raw", ("", ""))] silacLowerRows) = true := by
  exact ⟨rfl, rfl, rfl, rfl⟩

/-- Claim C7: `parse_tolerance` returns `(None, None)` for every cell whose
lowered text contains neither `ppm` nor `da`; and the cell `10ppm` parses to
`("10", "ppm")` while recording exactly one missing-whitespace warning. -/
theorem C7_parse_tolerance :
    (∀ s : String, pyIn "ppm" (pyLowerS s) = false → pyIn "da" (pyLowerS s) = false →
      parse_tolerance s = Except.ok ((none, none), [])) ∧
    parse_tolerance "10ppm" = Except.ok ((some "10", some "ppm"),
      ["Missing whitespace in precursor mass tolerance: 10ppm Adding it: 10 ppm"]) := by
  refine ⟨?_, rfl⟩
  intro s h1 h2
  simp [parse_tolerance, toleranceLoop, h1, h2]

/-- Witness for C7: a cell with no recognised unit substring. -/
theorem C7_parse_tolerance_witness :
    parse_tolerance "5 mmu" = Except.ok ((none, none), []) :=
  C7_parse_tolerance.1 "5 mmu" (by rfl) (by rfl)

/-- Claim C8: for a descriptor with position class `Protein N-term` or
`Protein C-term` (and likewise `Any N-term`/`Any C-term` after dropping the
`Any ` prefix), each target amino acid that is itself a terminus token gets
the position-only annotation `<name> (<position>)`, every other target gets
`<name> (<position> <aa>)`; in particular `PP=Protein N-term` with
`TA=N-term` gives `<name> (Protein N-term)` with no duplicated suffix. -/
theorem C8_terminal_formatting :
    (∀ (lookup : String → Option String) (m nt ac pp ta : String),
      pyIn "AC=UNIMOD" m = true →
      reField "NT=" m = some nt → reField "AC=" m = some ac →
      reField "PP=" m = some pp → reField "TA=" m = some ta →
      (pp = "Protein N-term" ∨ pp = "Protein C-term") →
      openms_ify_mod lookup m = Except.ok
        ((pySplitS "," ta).map (fun a =>
          if a = "C-term" ∨ a = "N-term" then
            resolvedName lookup ac nt ++ " (" ++ pp ++ ")"
          else resolvedName lookup ac nt ++ " (" ++ pp ++ " " ++ a ++ ")"), [])) ∧
    (∀ (lookup : String → Option String) (m nt ac pp ta : String),
      pyIn "AC=UNIMOD" m = true →
      reField "NT=" m = some nt → reField "AC=" m = some ac →
      reField "PP=" m = some pp → reField "TA=" m = some ta →
      (pp = "Any N-term" ∨ pp = "Any C-term") →
      openms_ify_mod lookup m = Except.ok
        ((pySplitS "," ta).map (fun a =>
          if a = "C-term" ∨ a = "N-term" then
            resolvedName lookup ac nt ++ " ("
              ++ String.mk (pyReplaceC pp.data "Any ".data []) ++ ")"
          else resolvedName lookup ac nt ++ " ("
              ++ String.mk (pyReplaceC pp.data "Any ".data []) ++ " " ++ a ++ ")"), [])) ∧
    openms_ify_mod (fun _ => none)
        "NT=Testmod;AC=UNIMOD:999;PP=Protein N-term;TA=N-term;MT=variable"
      = Except.ok (["Testmod (Protein N-term)"], []) := by
  refine ⟨?_, ?_, rfl⟩
  · intro lookup m nt ac pp ta hin hnt hac hpp hta hppc
    simp only [openms_ify_mod, hin, Bool.not_true, Bool.false_and,
      Bool.false_eq_true, if_false, hnt, hac, hpp, hta, ite_false]
    rw [if_pos hppc]
    rfl
  · intro lookup m nt ac pp ta hin hnt hac hpp hta hppc
    have hnp : ¬(pp = "Protein N-term" ∨ pp = "Protein C-term") := by
      rcases hppc with h | h <;> subst h <;> simp
    simp only [openms_ify_mod, hin, Bool.not_true, Bool.false_and,
      Bool.false_eq_true, if_false, hnt, hac, hpp, hta, ite_false]
    rw [if_neg hnp, if_pos hppc]
    rfl

/-- Witness for C8: the `Any N-term` rule on the two-site target `S,N-term`,
formatting the residue site with the position and the terminus site
position-only. -/
theorem C8_terminal_formatting_witness :
    openms_ify_mod (fun _ => none)
        "NT=Testmod;AC=UNIMOD:999;PP=Any N-term;TA=S,N-term;MT=variable"
      = Except.ok (["Testmod (N-term S)", "Testmod (N-term)"], []) :=
  C8_terminal_formatting.2.1 (fun _ => none)
    "NT=Testmod;AC=UNIMOD:999;PP=Any N-term;TA=S,N-term;MT=variable"
    "Testmod" "UNIMOD:999" "Any N-term" "S,N-term"
    rfl rfl rfl rfl rfl (Or.inl rfl)

/-- Claim C4: when a file's resolved scheme is TMT (respectively iTRAQ) and
neither its fixed nor its variable modification string contains the
scheme-family substring, the search-settings writer appends the
scheme-specific default variable-modification pair (`TMT6plex (K)` /
`TMT6plex (N-term)` for tmt6/10/11plex, `TMTpro` pair for tmt16/18plex, the
respective `iTRAQ4plex`/`iTRAQ8plex` pair for iTRAQ) to that file's variable
modifications — both in the `file2mods` aggregate and in the emitted row —
and records exactly one occurrence of the corresponding recoverable
warning. -/
theorem C4_default_mod_injection :
    (∀ (sin : SearchIn) (st : SearchSt) (row : Row)
        (am fx vr pt ptu ft ftu di en : String) (labels : List String),
      row.acquisition = some am → (pySplitS ";" am).length ≤ 1 →
      st.raws.contains row.dataFile = false →
      dictGet? sin.file2label row.dataFile = some labels →
      dictGet? st.file2mods row.dataFile = some (fx, vr) →
      dictGet? sin.file2pctol row.dataFile = some pt →
      dictGet? sin.file2pctolunit row.dataFile = some ptu →
      dictGet? sin.file2fragtol row.dataFile = some ft →
      dictGet? sin.file2fragtolunit row.dataFile = some ftu →
      dictGet? sin.file2diss row.dataFile = some di →
      dictGet? sin.file2enzyme row.dataFile = some en →
      pyIn "TMT" (pyJoinStr "," labels) = true →
      pyIn "TMT" fx = false → pyIn "TMT" vr = false →
      ∃ p1 p2 st2,
        dictGet? TMT_mod (infer_tmtplex labels.toFinset) = some [p1, p2] ∧
        searchStep sin st row = Except.ok st2 ∧
        dictGet? st2.file2mods row.dataFile =
          some (fx, if vr = "" then p1 ++ "," ++ p2 else vr ++ "," ++ (p1 ++ "," ++ p2)) ∧
        st2.warnings = st.warnings ++
          ["The sdrf with TMT label doesn't contain TMT modification. Adding default variable modifications."] ∧
        ∃ r, st2.rows = st.rows ++ [r] ∧
          r.varMods = (if vr = "" then p1 ++ "," ++ p2 else vr ++ "," ++ (p1 ++ "," ++ p2)) ∧
          r.label = infer_tmtplex labels.toFinset)
    ∧ (∀ (sin : SearchIn) (st : SearchSt) (row : Row)
        (am fx vr pt ptu ft ftu di en : String) (labels : List String),
      row.acquisition = some am → (pySplitS ";" am).length ≤ 1 →
      st.raws.contains row.dataFile = false →
      dictGet? sin.file2label row.dataFile = some labels →
      dictGet? st.file2mods row.dataFile = some (fx, vr) →
      dictGet? sin.file2pctol row.dataFile = some pt →
      dictGet? sin.file2pctolunit row.dataFile = some ptu →
      dictGet? sin.file2fragtol row.dataFile = some ft →
      dictGet? sin.file2fragtolunit row.dataFile = some ftu →
      dictGet? sin.file2diss row.dataFile = some di →
      dictGet? sin.file2enzyme row.dataFile = some en →
      pyIn "TMT" (pyJoinStr "," labels) = false →
      "label free sample" ∉ labels.toFinset →
      pyIn "silac" (pyJoinStr "," labels) = false →
      pyIn "ITRAQ" (pyJoinStr "," labels) = true →
      pyIn "ITRAQ" fx = false → pyIn "ITRAQ" vr = false →
      ∃ lbl p1 p2 st2,
        lbl = (if 4 < labels.toFinset.card ∨ "ITRAQ113" ∈ labels.toFinset
            ∨ "ITRAQ118" ∈ labels.toFinset ∨ "ITRAQ119" ∈ labels.toFinset
            ∨ "ITRAQ121" ∈ labels.toFinset then "itraq8plex" else "itraq4plex") ∧
        dictGet? ITRAQ_mod lbl = some [p1, p2] ∧
        searchStep sin st row = Except.ok st2 ∧
        dictGet? st2.file2mods row.dataFile =
          some (fx, if vr = "" then p1 ++ "," ++ p2 else vr ++ "," ++ (p1 ++ "," ++ p2)) ∧
        st2.warnings = st.warnings ++
          ["The sdrf with ITRAQ label doesn't contain label modification. Adding default variable modifications."] ∧
        ∃ r, st2.rows = st.rows ++ [r] ∧
          r.varMods = (if vr = "" then p1 ++ "," ++ p2 else vr ++ "," ++ (p1 ++ "," ++ p2)) ∧
          r.label = lbl) := by
  constructor
  · intro sin st row am fx vr pt ptu ft ftu di en labels
    intro hacq hlen hskip hlab hmods h1 h2 h3 h4 h5 h6 htmt hfx hvr
    obtain ⟨p1, p2, hp, hbranch⟩ :=
      searchLabelBranch_tmt st.file2mods row.dataFile labels fx vr htmt hmods hfx hvr
    have hmods2 := dictGet?_insert_self st.file2mods row.dataFile
      (fx, if vr = "" then p1 ++ "," ++ p2 else vr ++ "," ++ (p1 ++ "," ++ p2))
    refine ⟨p1, p2, _,
      hp,
      searchStep_ok sin st row am labels _ _ _ fx _ pt ptu ft ftu di en
        hacq hlen hskip hlab hbranch hmods2 h1 h2 h3 h4 h5 h6,
      ?_, ?_, ?_⟩
    · exact hmods2
    · rfl
    · exact ⟨_, rfl, rfl, rfl⟩
  · intro sin st row am fx vr pt ptu ft ftu di en labels
    intro hacq hlen hskip hlab hmods h1 h2 h3 h4 h5 h6 htmt hlf hsilac hitraq hfx hvr
    by_cases h8 : 4 < labels.toFinset.card ∨ "ITRAQ113" ∈ labels.toFinset
        ∨ "ITRAQ118" ∈ labels.toFinset ∨ "ITRAQ119" ∈ labels.toFinset
        ∨ "ITRAQ121" ∈ labels.toFinset
    · have hbranch := searchLabelBranch_itraq8 st.file2mods row.dataFile labels fx vr
        htmt hlf hsilac hitraq hmods hfx hvr h8
      have hmods2 := dictGet?_insert_self st.file2mods row.dataFile
        (fx, if vr = "" then "iTRAQ8plex (K)" ++ "," ++ "iTRAQ8plex (N-term)"
             else vr ++ "," ++ ("iTRAQ8plex (K)" ++ "," ++ "iTRAQ8plex (N-term)"))
      refine ⟨"itraq8plex", "iTRAQ8plex (K)", "iTRAQ8plex (N-term)", _,
        (if_pos h8).symm, rfl,
        searchStep_ok sin st row am labels _ _ _ fx _ pt ptu ft ftu di en
          hacq hlen hskip hlab hbranch hmods2 h1 h2 h3 h4 h5 h6,
        ?_, ?_, ?_⟩
      · exact hmods2
      · rfl
      · exact ⟨_, rfl, rfl, rfl⟩
    · have hbranch := searchLabelBranch_itraq4 st.file2mods row.dataFile labels fx vr
        htmt hlf hsilac hitraq hmods hfx hvr h8
      have hmods2 := dictGet?_insert_self st.file2mods row.dataFile
        (fx, if vr = "" then "iTRAQ4plex (K)" ++ "," ++ "iTRAQ4plex (N-term)"
             else vr ++ "," ++ ("iTRAQ4plex (K)" ++ "," ++ "iTRAQ4plex (N-term)"))
      refine ⟨"itraq4plex", "iTRAQ4plex (K)", "iTRAQ4plex (N-term)", _,
        (if_neg h8).symm, rfl,
        searchStep_ok sin st row am labels _ _ _ fx _ pt ptu ft ftu di en
          hacq hlen hskip hlab hbranch hmods2 h1 h2 h3 h4 h5 h6,
        ?_, ?_, ?_⟩
      · exact hmods2
      · rfl
      · exact ⟨_, rfl, rfl, rfl⟩

/-- Witness for C4: a TMT6-labelled file with empty modification strings
receives the default `TMT6plex` pair and one warning. -/
theorem C4_default_mod_injection_witness :
    ∃ p1 p2 st2,
      dictGet? TMT_mod (infer_tmtplex (["TMT126"] : List String).toFinset)
        = some [p1, p2] ∧
      searchStep (silacSearchIn ["TMT126"])
          { raws := [], file2mods := [("f.raw", ("", ""))], warnings := [], rows := [] }
          { dataFile := "f.raw", sourceName := "sample 1", labelCell := "NT=TMT126",
            uri := "u1", acquisition := some "DDA" }
        = Except.ok st2 ∧
      dictGet? st2.file2mods "f.raw" =
        some ("", if ("" : String) = "" then p1 ++ "," ++ p2
                  else "" ++ "," ++ (p1 ++ "," ++ p2)) ∧
      st2.warnings =
        ["The sdrf with TMT label doesn't contain TMT modification. Adding default variable modifications."] ∧
      ∃ r, st2.rows = [r] ∧
        r.varMods = (if ("" : String) = "" then p1 ++ "," ++ p2
                     else "" ++ "," ++ (p1 ++ "," ++ p2)) ∧
        r.label = infer_tmtplex (["TMT126"] : List String).toFinset :=
  C4_default_mod_injection.1 (silacSearchIn ["TMT126"])
    { raws := [], file2mods := [("f.raw", ("", ""))], warnings := [], rows := [] }
    { dataFile := "f.raw", sourceName := "sample 1", labelCell := "NT=TMT126",
      uri := "u1", acquisition := some "DDA" }
    "DDA" "" "" "10" "ppm" "20" "ppm" "HCD" "Trypsin" ["TMT126"]
    rfl (by decide) rfl rfl rfl rfl rfl rfl rfl rfl rfl rfl rfl rfl

/-- Every successful iteration of the two-table writer's file loop appends
exactly one row, whose `Spectra_Filepath` component is the result of
`get_openms_file_name` on the row's raw file with the conversion's
extension-remap option. -/
theorem twoTableStep_rows (din : DesignIn) (st : TwoSt) (row : Row) (st2 : TwoSt)
    (h : twoTableStep din st row = Except.ok st2) :
    ∃ fg fr out lb sm, st2.rows = st.rows ++ [(fg, fr, out, lb, sm)] ∧
      get_openms_file_name row.dataFile din.extension_convert = Except.ok out := by
  rw [twoTableStep] at h
  obtain ⟨replicate, hrep, h⟩ := bindOk h
  obtain ⟨idx, hidx, h⟩ := bindOk h
  obtain ⟨offset, hoff, h⟩ := bindOk h
  obtain ⟨rep, hint, h⟩ := bindOk h
  obtain ⟨fru, hfru, h⟩ := bindOk h
  obtain ⟨labels, hlab, h⟩ := bindOk h
  obtain ⟨lres, hlres, h⟩ := bindOk h
  obtain ⟨out, hout, h⟩ := bindOk h
  obtain ⟨fraction, hfrac, h⟩ := bindOk h
  cases h
  exact ⟨_, _, out, _, _, rfl, hout⟩

/-- Every successful iteration of the search-settings loop either skips the
row (a repeated raw file) or appends one row whose `Filename` is the raw
file name itself — `save_search_settings_to_file` takes no
extension-conversion input at all (openms.py line 1113). -/
theorem searchStep_rows (sin : SearchIn) (st : SearchSt) (row : Row) (st2 : SearchSt)
    (h : searchStep sin st row = Except.ok st2) :
    st2.rows = st.rows ∨
      ∃ r, st2.rows = st.rows ++ [r] ∧ r.filename = row.dataFile := by
  rw [searchStep] at h
  obtain ⟨acq, hacq, h⟩ := bindOk h
  by_cases hc : st.raws.contains row.dataFile = true
  · rw [if_pos hc] at h
    cases h
    exact Or.inl rfl
  · rw [if_neg hc] at h
    obtain ⟨labels, hlab, h⟩ := bindOk h
    obtain ⟨lres, hlres, h⟩ := bindOk h
    obtain ⟨modsE, hmods, h⟩ := bindOk h
    obtain ⟨p1, h1, h⟩ := bindOk h
    obtain ⟨p2, h2, h⟩ := bindOk h
    obtain ⟨p3, h3, h⟩ := bindOk h
    obtain ⟨p4, h4, h⟩ := bindOk h
    obtain ⟨d, h5, h⟩ := bindOk h
    obtain ⟨e, h6, h⟩ := bindOk h
    cases h
    exact Or.inr ⟨_, rfl, rfl⟩

/-- Claim C9: the extension remap is applied to the design table's file-path
column (every emitted design row's path is the remapped name) and never to
the search-settings `Filename` column; and for a well-formed remap
specification `get_openms_file_name` fails exactly when the first matching
rule rewrites the name to one ending in none of `raw`, `mzML`, `mzml`,
`d`. -/
theorem C9_extension_remap :
    (∀ (din : DesignIn) (st : TwoSt) (row : Row) (st2 : TwoSt),
      twoTableStep din st row = Except.ok st2 →
      ∃ fg fr out lb sm, st2.rows = st.rows ++ [(fg, fr, out, lb, sm)] ∧
        get_openms_file_name row.dataFile din.extension_convert = Except.ok out) ∧
    (∀ (sin : SearchIn) (st : SearchSt) (row : Row) (st2 : SearchSt),
      searchStep sin st row = Except.ok st2 →
      st2.rows = st.rows ∨
        ∃ r, st2.rows = st.rows ++ [r] ∧ r.filename = row.dataFile) ∧
    (∀ (raw ec : String) (rules : List (String × String)),
      parseExtRules (pySplitS "," ec) [] = Except.ok rules →
      (isOkB (get_openms_file_name raw (some ec)) = false ↔
        ∃ cur tgt, firstExtMatch raw rules = some (cur, tgt) ∧
          possible_extension.any
            (fun x => pyEndsWith (pyRemoveSuffixS raw cur ++ tgt) x) = false)) := by
  refine ⟨twoTableStep_rows, searchStep_rows, ?_⟩
  intro raw ec rules hp
  have hg : get_openms_file_name raw (some ec) = applyExtRules raw raw rules := by
    simp [get_openms_file_name, hp, bind, Except.bind]
  rw [hg, applyExtRules_eq]
  cases hf : firstExtMatch raw rules with
  | none =>
    simp only [hf]
    constructor
    · intro h; exact absurd h (by simp [isOkB])
    · rintro ⟨cur, tgt, heq, _⟩; cases heq
  | some p =>
    obtain ⟨cur, tgt⟩ := p
    simp only [hf]
    by_cases hs : possible_extension.any
        (fun x => pyEndsWith (pyRemoveSuffixS raw cur ++ tgt) x) = true
    · rw [if_pos hs]
      constructor
      · intro h; exact absurd h (by simp [isOkB])
      · rintro ⟨cur2, tgt2, heq, hany⟩
        injection heq with h
        injection h with h1 h2
        subst h1; subst h2
        rw [hany] at hs
        cases hs
    · have hs2 : possible_extension.any
          (fun x => pyEndsWith (pyRemoveSuffixS raw cur ++ tgt) x) = false := by
        simpa using hs
      rw [if_neg hs]
      constructor
      · intro _; exact ⟨cur, tgt, rfl, hs2⟩
      · intro _; rfl

/-- Witness for C9: remapping `raw` to the unsupported extension `wiff`
makes the conversion of `file.raw` fail fatally. -/
theorem C9_extension_remap_witness :
    isOkB (get_openms_file_name "file.raw" (some "raw:wiff")) = false :=
  (C9_extension_remap.2.2 "file.raw" "raw:wiff" [("raw", "wiff")] rfl).mpr
    ⟨"raw", "wiff", rfl, rfl⟩

/-- Claim C10: `get_openms_file_name` with no remap option returns the name
unchanged; with a well-formed remap specification none of whose source
extensions matches the name's suffix case-insensitively, the name is
returned unchanged without validation against the allowed-extension set;
and when some rule matches, only the first matching rule determines the
result. -/
theorem C10_no_match_passthrough :
    (∀ raw : String, get_openms_file_name raw none = Except.ok raw) ∧
    (∀ (raw ec : String) (rules : List (String × String)),
      parseExtRules (pySplitS "," ec) [] = Except.ok rules →
      firstExtMatch raw rules = none →
      get_openms_file_name raw (some ec) = Except.ok raw) ∧
    (∀ (raw ec cur tgt : String) (rules : List (String × String)),
      parseExtRules (pySplitS "," ec) [] = Except.ok rules →
      firstExtMatch raw rules = some (cur, tgt) →
      get_openms_file_name raw (some ec) =
        (if possible_extension.any
            (fun x => pyEndsWith (pyRemoveSuffixS raw cur ++ tgt) x) then
          Except.ok (pyRemoveSuffixS raw cur ++ tgt)
        else Except.error (extErrMsg raw (pyRemoveSuffixS raw cur ++ tgt)))) := by
  refine ⟨fun raw => rfl, ?_, ?_⟩
  · intro raw ec rules hp hf
    have hg : get_openms_file_name raw (some ec) = applyExtRules raw raw rules := by
      simp [get_openms_file_name, hp, bind, Except.bind]
    rw [hg, applyExtRules_eq]
    simp only [hf]
  · intro raw ec cur tgt rules hp hf
    have hg : get_openms_file_name raw (some ec) = applyExtRules raw raw rules := by
      simp [get_openms_file_name, hp, bind, Except.bind]
    rw [hg, applyExtRules_eq]
    simp only [hf]

/-- Witness for C10: with remap `raw:mzML`, the file `file.wiff` matches no
rule and passes through unchanged even though `wiff` is not an allowed
extension. -/
theorem C10_no_match_passthrough_witness :
    get_openms_file_name "file.wiff" (some "raw:mzML") = Except.ok "file.wiff" :=
  C10_no_match_passthrough.2.1 "file.wiff" "raw:mzML" [("raw", "mzML")] rfl rfl
